import Mathlib

/-!
# The chaincode router of `iotcontractplatform` (`ctrouter.go`)

A shallow embedding of the route registry (`AddRoute`, `getDeployFunctions`),
the result event emitter (`setStubEvent`), the three dispatch entry points
(`Init`, `Invoke`, `Query`), the built-in `readAllRoutes` handler and the
role-based response filter (`filterQueryResponse`), followed by theorems
about them.

Conventions of the embedding:

* A Go `[]byte` and a Go `string` are both a Lean `String`; a nil slice and an
  empty slice are both `""` (the code only ever asks for `len`).
* A Go `error` is its message text; `nil` is `none`.
* A run-time panic is the `Go.panic` outcome of a function that can fault.
* What the Go runtime and `encoding/json` supply (map iteration order, the
  JSON codec) is collected in the structure `GoEnv`.
-/

set_option autoImplicit false

namespace IotContractPlatform

/-! ## Outcomes of Go functions that can fault -/

/-- The outcome of a Go function call that may panic at run time: either it
returns a value or it faults with the runtime's message. -/
inductive Go (α : Type) where
  | ret (value : α)
  | panic (msg : String)

/-! ## JSON values held in a `map[string]interface{}` -/

/-- A decoded JSON value, as `encoding/json` stores it in an `interface{}`.
A number is kept as its literal text. -/
inductive JValue where
  | null
  | bool (b : Bool)
  | number (literal : String)
  | string (s : String)
  | array (items : List JValue)
  | object (members : List (String × JValue))

/-- A Go `map[string]interface{}`: the key/value pairs it holds. -/
abbrev JMap := List (String × JValue)

/-- The map assignment `m[k] = v`: the value under an existing key is replaced,
a new key is added. -/
def JMap.set : JMap → String → JValue → JMap
  | [], k, v => [(k, v)]
  | (k0, v0) :: rest, k, v =>
    if k0 = k then (k, v) :: rest else (k0, v0) :: JMap.set rest k v

/-- The map read `m[k]`. -/
def JMap.get : JMap → String → Option JValue
  | [], _ => none
  | (k0, v0) :: rest, k => if k0 = k then some v0 else JMap.get rest k

/-! ## The records of `ctrouter.go` -/

/-- The nested `DmaCert { Cert string }` member of an asset record. -/
structure DmaCertStruct where
  Cert : String
  deriving DecidableEq, Repr

/-- The asset record: the element type of `ResponseStruct.AssetState.Asset`
and, with the same field list, the type of `InRequest.Asset`. -/
structure AssetRecord where
  TransactionType : String
  OwnerId : String
  AssetId : String
  MatnrAf : String
  PoDma : String
  PoSupp : String
  DmaDelDate : String
  AfDelDate : String
  TruckMod : String
  TruckPDate : String
  TruckChnum : String
  TruckEnnum : String
  SuppTest : String
  GrDma : String
  GrAf : String
  DmaMasdat : String
  AfDmaTest : String
  DmaCert : DmaCertStruct
  AfDoc : String
  Caller : String
  V5cid : String
  deriving DecidableEq, Repr

/-- The member `Assetclass` of `ResponseStruct`. The source names its second
field by a word that is reserved here, so it is written `pfx`. -/
structure AssetclassStruct where
  name : String
  pfx : String
  assetIDpath : String
  deriving DecidableEq, Repr

/-- The member `AssetState` of `ResponseStruct`: a slice of asset records. -/
structure AssetStateStruct where
  Asset : List AssetRecord
  deriving DecidableEq, Repr

/-- The member `EventPayload.Asset` of `ResponseStruct`. -/
structure EventAssetStruct where
  AssetId : String
  deriving DecidableEq, Repr

/-- The member `EventPayload` of `ResponseStruct`. -/
structure EventPayloadStruct where
  Asset : EventAssetStruct
  eventFunction : String
  txnId : String
  txnTs : String
  deriving DecidableEq, Repr

/-- The member `EventOut` of `ResponseStruct`; its `payload` is the empty
struct. -/
structure EventOutStruct where
  name : String
  payload : Unit
  compliant : String
  deriving DecidableEq, Repr

/-- The record `ResponseStruct` a query result is decoded into. -/
structure ResponseStruct where
  Assetclass : AssetclassStruct
  AssetKey : String
  AssetState : AssetStateStruct
  EventPayload : EventPayloadStruct
  EventOut : EventOutStruct
  deriving DecidableEq, Repr

/-- The record `InRequest`: the body of the input request. -/
structure InRequest where
  Asset : AssetRecord
  deriving DecidableEq, Repr

/-- The zero value of an asset record: every field the empty string. -/
def AssetRecord.zero : AssetRecord :=
  { TransactionType := "", OwnerId := "", AssetId := "", MatnrAf := "", PoDma := "",
    PoSupp := "", DmaDelDate := "", AfDelDate := "", TruckMod := "", TruckPDate := "",
    TruckChnum := "", TruckEnnum := "", SuppTest := "", GrDma := "", GrAf := "",
    DmaMasdat := "", AfDmaTest := "", DmaCert := { Cert := "" }, AfDoc := "",
    Caller := "", V5cid := "" }

/-- The zero value of `ResponseStruct`, what `var respObj ResponseStruct`
declares: empty strings and a nil `Asset` slice. -/
def ResponseStruct.zero : ResponseStruct :=
  { Assetclass := { name := "", pfx := "", assetIDpath := "" },
    AssetKey := "",
    AssetState := { Asset := [] },
    EventPayload := { Asset := { AssetId := "" }, eventFunction := "", txnId := "", txnTs := "" },
    EventOut := { name := "", payload := (), compliant := "" } }

/-- The zero value of `InRequest`, what `var inreq InRequest` declares. -/
def InRequest.zero : InRequest := { Asset := AssetRecord.zero }

/-! ## The response filter -/

/-- The function `filterQueryResponse` (lines 336-423).

`resp := respFull.AssetState.Asset[0]` copies the first entry and faults on an
empty slice. The branches clear fields of the copy, in the order of the
source. The default branch also assigns `resp.DmaDelCert`, a field the record
does not declare; that assignment has no counterpart here. The closing
`respFull.AssetState.Asset = resp` makes the filtered entry the content of
`Asset`. The returned error is always nil. -/
def filterQueryResponse (respFull : ResponseStruct) (caller : String) :
    Go (ResponseStruct × Option String) :=
  match respFull.AssetState.Asset with
  | [] => Go.panic "runtime error: index out of range [0] with length 0"
  | resp :: _ =>
    let resp : AssetRecord :=
      if caller = "AF" then
        { resp with
          MatnrAf := "", PoSupp := "", DmaDelDate := "", SuppTest := "", GrDma := "",
          DmaCert := { resp.DmaCert with Cert := "" } }
      else if caller = "DMA" then
        { resp with DmaCert := { resp.DmaCert with Cert := "" } }
      else if caller = "Supplier" then
        { resp with
          MatnrAf := "", PoDma := "", AfDelDate := "", GrDma := "", GrAf := "",
          DmaMasdat := "", AfDmaTest := "",
          DmaCert := { resp.DmaCert with Cert := "" },
          AfDoc := "" }
      else if caller = "Transporter" then
        { resp with
          MatnrAf := "", PoDma := "", PoSupp := "", DmaDelDate := "", AfDelDate := "",
          TruckMod := "", TruckPDate := "", TruckChnum := "", TruckEnnum := "",
          SuppTest := "", GrDma := "", GrAf := "", DmaMasdat := "", AfDmaTest := "",
          DmaCert := { resp.DmaCert with Cert := "" },
          AfDoc := "" }
      else
        { resp with
          TransactionType := "", OwnerId := "", MatnrAf := "", PoDma := "", PoSupp := "",
          DmaDelDate := "", AfDelDate := "", TruckMod := "", TruckPDate := "",
          TruckChnum := "", TruckEnnum := "", SuppTest := "", GrDma := "", GrAf := "",
          DmaMasdat := "", AfDmaTest := "", AfDoc := "", Caller := "", V5cid := "",
          DmaCert := { resp.DmaCert with Cert := "" } }
    Go.ret ({ respFull with AssetState := { respFull.AssetState with Asset := [resp] } }, none)

/-! ### Vocabulary for statements about the filter -/

/-- The names of the string fields of an asset record, `DmaCertCert` standing
for the nested `DmaCert.Cert`. -/
inductive AssetField where
  | TransactionType | OwnerId | AssetId | MatnrAf | PoDma | PoSupp | DmaDelDate
  | AfDelDate | TruckMod | TruckPDate | TruckChnum | TruckEnnum | SuppTest | GrDma
  | GrAf | DmaMasdat | AfDmaTest | DmaCertCert | AfDoc | Caller | V5cid
  deriving DecidableEq, Repr

/-- The value of a named field of an asset record. -/
def AssetRecord.field (a : AssetRecord) : AssetField → String
  | .TransactionType => a.TransactionType
  | .OwnerId => a.OwnerId
  | .AssetId => a.AssetId
  | .MatnrAf => a.MatnrAf
  | .PoDma => a.PoDma
  | .PoSupp => a.PoSupp
  | .DmaDelDate => a.DmaDelDate
  | .AfDelDate => a.AfDelDate
  | .TruckMod => a.TruckMod
  | .TruckPDate => a.TruckPDate
  | .TruckChnum => a.TruckChnum
  | .TruckEnnum => a.TruckEnnum
  | .SuppTest => a.SuppTest
  | .GrDma => a.GrDma
  | .GrAf => a.GrAf
  | .DmaMasdat => a.DmaMasdat
  | .AfDmaTest => a.AfDmaTest
  | .DmaCertCert => a.DmaCert.Cert
  | .AfDoc => a.AfDoc
  | .Caller => a.Caller
  | .V5cid => a.V5cid

/-- The asset entry of the record `filterQueryResponse` returns, when it
returns one. -/
def filteredEntry (respFull : ResponseStruct) (caller : String) : Option AssetRecord :=
  match filterQueryResponse respFull caller with
  | Go.ret (out, _) => out.AssetState.Asset.head?
  | Go.panic _ => none

/-- The filter clears field `f` for `caller`: whatever record with an asset
entry it is given, the entry it returns holds the empty string in `f`. -/
def Clears (caller : String) (f : AssetField) : Prop :=
  ∀ respFull : ResponseStruct, respFull.AssetState.Asset ≠ [] →
    ∃ b, filteredEntry respFull caller = some b ∧ b.field f = ""

/-- A record whose single asset entry holds `"x"` in every field. -/
def probeRecord : AssetRecord :=
  { TransactionType := "x", OwnerId := "x", AssetId := "x", MatnrAf := "x", PoDma := "x",
    PoSupp := "x", DmaDelDate := "x", AfDelDate := "x", TruckMod := "x", TruckPDate := "x",
    TruckChnum := "x", TruckEnnum := "x", SuppTest := "x", GrDma := "x", GrAf := "x",
    DmaMasdat := "x", AfDmaTest := "x", DmaCert := { Cert := "x" }, AfDoc := "x",
    Caller := "x", V5cid := "x" }

/-- A response holding the probe record as its only asset entry. -/
def probeResponse : ResponseStruct :=
  { ResponseStruct.zero with AssetState := { Asset := [probeRecord] } }

/-! ## The ledger stub -/

/-- One call of `stub.SetEvent(name, bytes)`. The bytes the router passes are
`json.Marshal` of a payload map; the event is recorded by that map. -/
structure Event where
  name : String
  payload : JMap

/-- The ledger capability `shim.ChaincodeStubInterface` as the router and its
handlers see it: the string arguments of the call (`GetStringArgs`), the
key/value world state, and the events set so far, oldest first. -/
structure Stub where
  args : List String
  state : List (String × String)
  events : List Event

/-- The call `stub.SetEvent(name, payload)`: the event is recorded; the shim
refuses only an empty event name. -/
def Stub.SetEvent (stub : Stub) (name : String) (payload : JMap) : Stub × Option String :=
  if name = "" then (stub, some "event name can not be empty string")
  else ({ stub with events := stub.events ++ [{ name := name, payload := payload }] }, none)

/-! ## Routes and the registry -/

/-- Modelled from the spec: the type `AssetClass` is declared outside
`ctrouter.go`. The spec calls it the owning class of a route, an identifier;
the router reads only its `Name`. -/
structure AssetClass where
  Name : String
  deriving DecidableEq, Repr

/-- The type `ChaincodeFunc`: a handler `func(stub, args) ([]byte, error)`.
A handler registered by an asset class is a function of the stub and the
arguments that returns the stub as it leaves it, its bytes and its error.
The platform's own handler `readAllRoutes` reads the package variable
`router`, so it is a constructor of its own, run by `ChaincodeFunc.apply`. -/
inductive ChaincodeFunc where
  | readAllRoutes
  | handler (run : Stub → List String → Stub × String × Option String)

/-- The record `ChaincodeRoute`: a route for an asset class or event. -/
structure ChaincodeRoute where
  FunctionName : String
  Method : String
  Class : AssetClass
  Function : ChaincodeFunc

/-- The package variable `router`, a `map[string]ChaincodeRoute`: its entries
in the order they were registered. A Go map holds a key once. -/
abbrev Router := List (String × ChaincodeRoute)

/-- The map read `r, found := router[functionName]`. -/
def Router.get : Router → String → Option ChaincodeRoute
  | [], _ => none
  | (k, r) :: rest, functionName => if k = functionName then some r else Router.get rest functionName

/-- The keys of the registry, in registration order. -/
def Router.keys (router : Router) : List String := router.map Prod.fst

/-- The local type `RoutesOut` of `readAllRoutes`. -/
structure RoutesOut where
  FunctionName : String
  Method : String
  Class : AssetClass
  deriving DecidableEq, Repr

/-- What the Go runtime and `encoding/json` supply to the router.

* `rangeOrder router` is the sequence of values one `for _, r := range router`
  loop visits. Go leaves the order of a map iteration unspecified; every entry
  is visited once (`range_perm`).
* `unmarshalMap b` is `json.Unmarshal(b, &eventMap)` on a nil map: an error,
  or the map, which stays nil for the text `null`.
* `unmarshalInRequest b` and `unmarshalResponse b` are `json.Unmarshal` into a
  zero `InRequest` and a zero `ResponseStruct`: the record as the decoder
  leaves it, and the error if there is one.
* `marshalResponse` and `marshalRoutes` are `json.Marshal`: bytes and error. -/
structure GoEnv where
  rangeOrder : Router → List ChaincodeRoute
  range_perm : ∀ router : Router, (rangeOrder router).Perm (router.map Prod.snd)
  unmarshalMap : String → Except String (Option JMap)
  unmarshalInRequest : String → InRequest × Option String
  unmarshalResponse : String → ResponseStruct × Option String
  marshalResponse : ResponseStruct → String × Option String
  marshalRoutes : List RoutesOut → String × Option String

/-- The function `AddRoute` (lines 138-153): a name already registered is
refused with an error and the registry is left as it is; a new name is added.
The five arguments handed to the message are `class.Name, method,
r.FunctionName, r.Class.Name, r.Method`, in this order. -/
def AddRoute (router : Router) (functionName : String) (method : String) (cls : AssetClass)
    (function : ChaincodeFunc) : Router × Option String :=
  match router.get functionName with
  | some r =>
    let err := "AddRoute: function name " ++ cls.Name ++ " attempt to register against class "
      ++ method ++ " as method " ++ r.FunctionName ++ " but is already registered against class "
      ++ r.Class.Name ++ " as method " ++ r.Method
    (router, some err)
  | none =>
    let r : ChaincodeRoute :=
      { FunctionName := functionName, Method := method, Class := cls, Function := function }
    (router ++ [(functionName, r)], none)

/-- The function `getDeployFunctions` (lines 155-163): the handlers of the
routes whose method is `deploy`, in the order the map iteration visits them. -/
def getDeployFunctions (env : GoEnv) (router : Router) : List ChaincodeFunc :=
  (env.rangeOrder router).foldl
    (fun results r => if r.Method = "deploy" then results ++ [r.Function] else results) []

/-- The constant `EVTCCINVRESULT`. -/
def EVTCCINVRESULT : String := "EVT.IOTCP.INVOKE.RESULT"

/-- Modelled from the spec: the type `InvokeResultEvent` is declared outside
`ctrouter.go`; it is built from the event name and a payload map and read
through `Payload`, the spec's ResultEvent with its name and payload. -/
structure InvokeResultEvent where
  Name : String
  Payload : JMap

/-- The function `setStubEvent` (lines 172-190). A nil `info` is replaced by a
fresh map; the status (and, on an error, the message) are assigned into the
payload, which is then handed to `stub.SetEvent`, whose error is dropped. -/
def setStubEvent (stub : Stub) (err : Option String) (info : Option JMap) : Stub :=
  let ire : InvokeResultEvent :=
    match info with
    | none => { Name := EVTCCINVRESULT, Payload := [] }
    | some info => { Name := EVTCCINVRESULT, Payload := info }
  let ire : InvokeResultEvent :=
    match err with
    | none => { ire with Payload := ire.Payload.set "status" (JValue.string "OK") }
    | some e =>
      { ire with
        Payload := (ire.Payload.set "status" (JValue.string "ERROR")).set "message" (JValue.string e) }
  (stub.SetEvent EVTCCINVRESULT ire.Payload).1

/-- The handler `readAllRoutes` (lines 310-326): one `RoutesOut` per route the
iteration over `router` visits, encoded by `json.Marshal`. -/
def readAllRoutes (env : GoEnv) (router : Router) (stub : Stub) (_args : List String) :
    Stub × String × Option String :=
  let r : List RoutesOut :=
    (env.rangeOrder router).foldl
      (fun r route =>
        r ++ [{ FunctionName := route.FunctionName, Method := route.Method, Class := route.Class }])
      []
  (stub, env.marshalRoutes r)

/-- Running a handler on a stub and an argument list. -/
def ChaincodeFunc.apply (env : GoEnv) (router : Router) :
    ChaincodeFunc → Stub → List String → Stub × String × Option String
  | ChaincodeFunc.readAllRoutes, stub, args => IotContractPlatform.readAllRoutes env router stub args
  | ChaincodeFunc.handler run, stub, args => run stub args

/-- The state an entry point runs in: the ledger stub, and `calls`, the
handlers the router has executed so far, oldest first. `calls` is kept for the
statements only; no handler can read or change it. -/
structure World where
  stub : Stub
  calls : List ChaincodeFunc

/-- A call site `f(stub, args)` of the router: the handler runs on the stub
and the call is added to `calls`. -/
def World.call (env : GoEnv) (router : Router) (w : World) (f : ChaincodeFunc)
    (args : List String) : World × String × Option String :=
  match f.apply env router w.stub args with
  | (stub, bytes, err) => ({ stub := stub, calls := w.calls ++ [f] }, bytes, err)

/-- A call site `setStubEvent(stub, err, info)` of the router. -/
def World.report (w : World) (err : Option String) (info : Option JMap) : World :=
  { w with stub := setStubEvent w.stub err info }

/-- The function `init` (lines 328-330): `readAllRoutes` is registered as a
query route of `SystemClass`, a variable declared outside `ctrouter.go`; the
error of `AddRoute` is dropped. -/
def init (SystemClass : AssetClass) (router : Router) : Router :=
  (AddRoute router "readAllRoutes" "query" SystemClass ChaincodeFunc.readAllRoutes).1

/-! ## The three entry points -/

/-- The loop `for _, f := range fs` of `Init` (lines 210-220) with what follows
it: the first handler that returns an error ends the call with the wrapped
error and an error event; when the loop runs out the success event is set. -/
def InitLoop (env : GoEnv) (router : Router) (function : String) (iargs : List String) :
    List ChaincodeFunc → World → World × String × Option String
  | [], w => (w.report none none, "", none)
  | f :: fs, w =>
    match w.call env router f iargs with
    | (w1, _, some err) =>
      let err := "Init (" ++ function ++ ") failed with error " ++ err
      (w1.report (some err) none, "", some err)
    | (w1, _, none) => InitLoop env router function iargs fs w1

/-- The function `Init` (lines 193-221), called by deploy messages. -/
def Init (env : GoEnv) (router : Router) (w : World) (function : String) (args : List String)
    (ContractVersion : String) : World × String × Option String :=
  match args with
  | [] =>
    let err := "Init received no args, expecting a json object in args[0]"
    (w.report (some err) none, "", some err)
  | a0 :: _ =>
    let iargs := [a0, ContractVersion]
    let fs := getDeployFunctions env router
    if fs.length = 0 then
      let err := "Init found no registered functions '" ++ function ++ "'"
      (w.report (some err) none, "", some err)
    else
      InitLoop env router function iargs fs w

/-- The function `Invoke` (lines 224-254), called when an invoke message is
received. -/
def Invoke (env : GoEnv) (router : Router) (w : World) (function : String)
    (args : List String) : World × String × Option String :=
  match router.get function with
  | none =>
    let err := "$NIHAL$Invoke did not find registered invoke function " ++ function
    (w.report (some err) none, "", some err)
  | some r =>
    match w.call env router r.Function args with
    | (w1, _, some err) =>
      let err := "Invoke (" ++ function ++ ") failed with error " ++ err
      (w1.report (some err) none, "", some err)
    | (w1, eventToReportBytes, none) =>
      if eventToReportBytes.length = 0 then
        (w1.report none none, "", none)
      else
        match env.unmarshalMap eventToReportBytes with
        | Except.error err =>
          let err := "Invoke (" ++ function
            ++ ") failed to marshal returned event to report with error " ++ err
            ++ ", remember that chaincode events should be maps"
          (w1.report (some err) none, "", some err)
        | Except.ok eventMap => (w1.report none eventMap, "", none)

/-- The function `Query` (lines 257-307), called when a query message is
received. `Args[1]` faults when the stub holds fewer than two string
arguments; the decoding errors `err2` and `err5` are printed and dropped. -/
def Query (env : GoEnv) (router : Router) (w : World) (function : String)
    (args : List String) : World × Go (String × Option String) :=
  match w.stub.args.get? 1 with
  | none =>
    (w, Go.panic ("runtime error: index out of range [1] with length "
      ++ toString w.stub.args.length))
  | some a1 =>
    let inreq := (env.unmarshalInRequest a1).1
    match router.get function with
    | none => (w, Go.ret ("", some ("Query did not find registered query function " ++ function)))
    | some r =>
      match w.call env router r.Function args with
      | (w1, _, some err) =>
        (w1, Go.ret ("", some ("Query (" ++ function ++ ") failed with error " ++ err)))
      | (w1, result, none) =>
        let respObj := (env.unmarshalResponse result).1
        match filterQueryResponse respObj inreq.Asset.Caller with
        | Go.panic msg => (w1, Go.panic msg)
        | Go.ret (_, some _) => (w1, Go.ret ("", some "filterQueryResponse returned Error"))
        | Go.ret (filteredResp, none) =>
          match env.marshalResponse filteredResp with
          | (_, some _) =>
            (w1, Go.ret ("", some "Marshal ERROR just before sending back response in method Query"))
          | (resbytes, none) => (w1, Go.ret (resbytes, none))

/-! ## Statement vocabulary for the dispatcher -/

/-- The stub after the handlers `fs` have run one after the other on the same
argument list, each on the stub its predecessor left. -/
def runHandlers (env : GoEnv) (router : Router) (args : List String) :
    List ChaincodeFunc → Stub → Stub
  | [], stub => stub
  | f :: fs, stub => runHandlers env router args fs (f.apply env router stub args).1

/-- Every handler of `fs`, run one after the other from `stub`, returns a nil
error. -/
def AllSucceed (env : GoEnv) (router : Router) (args : List String) :
    List ChaincodeFunc → Stub → Prop
  | [], _ => True
  | f :: fs, stub =>
    (f.apply env router stub args).2.2 = none ∧
      AllSucceed env router args fs (f.apply env router stub args).1

/-- The handlers of the deploy routes of the registry, in registration order. -/
def deployHandlers (router : Router) : List ChaincodeFunc :=
  ((router.map Prod.snd).filter (fun r => decide (r.Method = "deploy"))).map
    (fun r => r.Function)

/-- The stub as the handler registered under `function` leaves it when run on
`args`; the stub itself when no route is registered under that name. -/
def stubAfterHandler (env : GoEnv) (router : Router) (w : World) (function : String)
    (args : List String) : Stub :=
  match router.get function with
  | none => w.stub
  | some r => (r.Function.apply env router w.stub args).1

/-- The payload map `setStubEvent` hands to `stub.SetEvent` for an error `err`
and an extra payload `info`. -/
def resultPayload (err : Option String) (info : Option JMap) : JMap :=
  match err with
  | none => JMap.set (info.getD []) "status" (JValue.string "OK")
  | some e =>
    JMap.set (JMap.set (info.getD []) "status" (JValue.string "ERROR")) "message" (JValue.string e)

/-! ## Concrete inputs -/

/-- A response record with two asset entries and every field filled in. -/
def sampleResponse : ResponseStruct :=
  { Assetclass := { name := "truck", pfx := "TR", assetIDpath := "asset.assetID" },
    AssetKey := "TR-7",
    AssetState :=
      { Asset :=
          [ { TransactionType := "create", OwnerId := "owner1", AssetId := "A-7",
              MatnrAf := "m1", PoDma := "po1", PoSupp := "po2", DmaDelDate := "d1",
              AfDelDate := "d2", TruckMod := "t1", TruckPDate := "t2", TruckChnum := "t3",
              TruckEnnum := "t4", SuppTest := "s1", GrDma := "g1", GrAf := "g2",
              DmaMasdat := "md", AfDmaTest := "at", DmaCert := { Cert := "cert" },
              AfDoc := "doc", Caller := "DMA", V5cid := "v5" },
            probeRecord ] },
    EventPayload :=
      { Asset := { AssetId := "A-7" }, eventFunction := "createAsset", txnId := "tx1",
        txnTs := "ts1" },
    EventOut := { name := "EVT", payload := (), compliant := "true" } }

/-- A stand-in for `json.Unmarshal` into a map: it knows the texts used at
the concrete inputs below and rejects every other one. -/
def demoUnmarshalMap : String → Except String (Option JMap)
  | "null" => Except.ok none
  | "\x7b\"x\":1\x7d" => Except.ok (some [("x", JValue.number "1")])
  | "\x7b\"message\":\"hi\"\x7d" => Except.ok (some [("message", JValue.string "hi")])
  | _ => Except.error "invalid character"

/-- A stand-in for `json.Unmarshal` into an `InRequest`: it reads the caller
of the two request texts used below and leaves the zero value otherwise. -/
def demoUnmarshalInRequest : String → InRequest × Option String
  | "\x7b\"Asset\":\x7b\"caller\":\"AF\"\x7d\x7d" =>
    ({ Asset := { AssetRecord.zero with Caller := "AF" } }, none)
  | "\x7b\"Asset\":\x7b\"caller\":\"DMA\"\x7d\x7d" =>
    ({ Asset := { AssetRecord.zero with Caller := "DMA" } }, none)
  | _ => (InRequest.zero, some "unexpected end of JSON input")

/-- A stand-in for `json.Unmarshal` into a `ResponseStruct`: the text
`sample` stands for the encoding of `sampleResponse`, an object with only an
asset key decodes to a record with no asset entry, and any other text (a JSON
array among them) leaves the zero value and reports an error. -/
def demoUnmarshalResponse : String → ResponseStruct × Option String
  | "sample" => (sampleResponse, none)
  | "\x7b\"assetkey\":\"TR-7\"\x7d" => ({ ResponseStruct.zero with AssetKey := "TR-7" }, none)
  | _ => (ResponseStruct.zero, some "json: cannot unmarshal into Go value of type ResponseStruct")

/-- A stand-in for `json.Marshal` of a list of `RoutesOut`: the function names
between brackets. -/
def demoMarshalRoutes (r : List RoutesOut) : String × Option String :=
  ("[" ++ ",".intercalate (r.map (fun ro => ro.FunctionName)) ++ "]", none)

/-- A stand-in for `json.Marshal` of a `ResponseStruct`: the asset key and the
identifiers of the asset entries. -/
def demoMarshalResponse (r : ResponseStruct) : String × Option String :=
  (r.AssetKey ++ ":" ++ ",".intercalate (r.AssetState.Asset.map (fun a => a.AssetId)), none)

/-- An environment whose map iteration follows the registration order. -/
def demoEnv : GoEnv :=
  { rangeOrder := fun router => router.map Prod.snd
    range_perm := fun _ => List.Perm.refl _
    unmarshalMap := demoUnmarshalMap
    unmarshalInRequest := demoUnmarshalInRequest
    unmarshalResponse := demoUnmarshalResponse
    marshalResponse := demoMarshalResponse
    marshalRoutes := demoMarshalRoutes }

/-- An environment whose map iteration runs against the registration order. -/
def demoEnvRev : GoEnv :=
  { demoEnv with
    rangeOrder := fun router => (router.map Prod.snd).reverse
    range_perm := fun _ => List.reverse_perm _ }

/-- A handler that fails with the error `boom`. -/
def boomHandler : ChaincodeFunc :=
  ChaincodeFunc.handler (fun stub _ => (stub, "", some "boom"))

/-- A handler that succeeds and returns no bytes; it records the contract
version it was given in the world state. -/
def versionHandler : ChaincodeFunc :=
  ChaincodeFunc.handler
    (fun stub args => ({ stub with state := ("version", args.getD 1 "") :: stub.state }, "", none))

/-- A handler that succeeds and returns no bytes. -/
def quietHandler : ChaincodeFunc :=
  ChaincodeFunc.handler (fun stub _ => (stub, "", none))

/-- A handler that succeeds with a payload whose only key is `x`, set to 1. -/
def xHandler : ChaincodeFunc :=
  ChaincodeFunc.handler (fun stub _ => (stub, "\x7b\"x\":1\x7d", none))

/-- A handler that succeeds with a payload whose only key is `message`, set
to the text `hi`. -/
def messageHandler : ChaincodeFunc :=
  ChaincodeFunc.handler (fun stub _ => (stub, "\x7b\"message\":\"hi\"\x7d", none))

/-- A handler that succeeds with the text standing for `sampleResponse`. -/
def sampleHandler : ChaincodeFunc :=
  ChaincodeFunc.handler (fun stub _ => (stub, "sample", none))

/-- A handler that succeeds with an object that carries only an asset key. -/
def keyOnlyHandler : ChaincodeFunc :=
  ChaincodeFunc.handler (fun stub _ => (stub, "\x7b\"assetkey\":\"TR-7\"\x7d", none))

/-- The class of the platform's own routes at the concrete inputs. -/
def demoSystemClass : AssetClass := { Name := "System" }

/-- The class of the sample routes. -/
def truckClass : AssetClass := { Name := "truck" }

/-- A registry: `readAllRoutes` as `init` registers it, then two deploy routes
(the first fails, the second succeeds), three invoke routes and two query
routes. -/
def demoRouter : Router :=
  [ ("readAllRoutes",
      { FunctionName := "readAllRoutes", Method := "query", Class := demoSystemClass,
        Function := ChaincodeFunc.readAllRoutes }),
    ("deployA",
      { FunctionName := "deployA", Method := "deploy", Class := truckClass,
        Function := boomHandler }),
    ("deployB",
      { FunctionName := "deployB", Method := "deploy", Class := truckClass,
        Function := versionHandler }),
    ("f", { FunctionName := "f", Method := "invoke", Class := truckClass, Function := boomHandler }),
    ("g", { FunctionName := "g", Method := "invoke", Class := truckClass, Function := xHandler }),
    ("m",
      { FunctionName := "m", Method := "invoke", Class := truckClass,
        Function := messageHandler }),
    ("readSample",
      { FunctionName := "readSample", Method := "query", Class := truckClass,
        Function := sampleHandler }),
    ("readKey",
      { FunctionName := "readKey", Method := "query", Class := truckClass,
        Function := keyOnlyHandler }) ]

/-- A registry whose two deploy routes both succeed. -/
def calmRouter : Router :=
  [ ("readAllRoutes",
      { FunctionName := "readAllRoutes", Method := "query", Class := demoSystemClass,
        Function := ChaincodeFunc.readAllRoutes }),
    ("deployA",
      { FunctionName := "deployA", Method := "deploy", Class := truckClass,
        Function := quietHandler }),
    ("deployB",
      { FunctionName := "deployB", Method := "deploy", Class := truckClass,
        Function := versionHandler }) ]

/-- A stub of a query call: the function name and a request payload naming
the caller `AF`; empty world state, no event yet. -/
def demoStub : Stub :=
  { args := ["readSample", "\x7b\"Asset\":\x7b\"caller\":\"AF\"\x7d\x7d"], state := [], events := [] }

/-- The state before any call: the sample stub and no handler executed. -/
def demoWorld : World := { stub := demoStub, calls := [] }

/-- A handler that writes a key to the world state and succeeds with the text
standing for `sampleResponse`. -/
def writeSampleHandler : ChaincodeFunc :=
  ChaincodeFunc.handler
    (fun stub _ => ({ stub with state := ("A-7", "created") :: stub.state }, "sample", none))

/-- A registry with one route of each method: `readAllRoutes` and `readSample`
are queries, `createAsset` is an invoke, `deployB` is a deploy. -/
def mixedRouter : Router :=
  [ ("readAllRoutes",
      { FunctionName := "readAllRoutes", Method := "query", Class := demoSystemClass,
        Function := ChaincodeFunc.readAllRoutes }),
    ("createAsset",
      { FunctionName := "createAsset", Method := "invoke", Class := truckClass,
        Function := writeSampleHandler }),
    ("readSample",
      { FunctionName := "readSample", Method := "query", Class := truckClass,
        Function := sampleHandler }),
    ("deployB",
      { FunctionName := "deployB", Method := "deploy", Class := truckClass,
        Function := versionHandler }) ]

/-- The environment `env` with the error of decoding the request payload
discarded. -/
def GoEnv.dropRequestError (env : GoEnv) : GoEnv :=
  { env with unmarshalInRequest := fun b => ((env.unmarshalInRequest b).1, none) }

/-- The environment `env` with another decoder of the request payload. -/
def GoEnv.withRequestDecoder (env : GoEnv) (dec : String → InRequest × Option String) : GoEnv :=
  { env with unmarshalInRequest := dec }

/-- A request payload that names the caller `DMA` and gives the number 5 for
the string field `ownerId`. -/
def mismatchPayload : String :=
  "\x7b\"Asset\":\x7b\"caller\":\"DMA\",\"ownerId\":5\x7d\x7d"

/-- A stand-in for `json.Unmarshal` into an `InRequest` on `mismatchPayload`.
For a value that does not fit its field `encoding/json` skips that field,
completes the decoding of the others and returns an error for the field it
skipped: the caller is read, the owner is left empty, the error is reported.
Every other text leaves the zero value. -/
def mismatchUnmarshalInRequest (b : String) : InRequest × Option String :=
  if b = mismatchPayload then
    ({ Asset := { AssetRecord.zero with Caller := "DMA" } },
     some "json: cannot unmarshal number into Go struct field .Asset.ownerId of type string")
  else (InRequest.zero, some "unexpected end of JSON input")

/-- A stand-in for `json.Marshal` of a `ResponseStruct` that shows, for every
asset entry, its identifier and its owner. -/
def ownerMarshalResponse (r : ResponseStruct) : String × Option String :=
  (",".intercalate (r.AssetState.Asset.map (fun a => a.AssetId ++ "/" ++ a.OwnerId)), none)

/-- The sample response cut down to its first asset entry. -/
def singleResponse : ResponseStruct :=
  { sampleResponse with AssetState := { Asset := sampleResponse.AssetState.Asset.take 1 } }

/-- A stand-in for `json.Unmarshal` into a `ResponseStruct` for which the text
`sample` stands for the encoding of `singleResponse`. -/
def singleUnmarshalResponse (b : String) : ResponseStruct × Option String :=
  if b = "sample" then (singleResponse, none)
  else (ResponseStruct.zero, some "json: cannot unmarshal into Go value of type ResponseStruct")

/-- The environment of the concrete inputs with the three stand-ins above. -/
def mismatchEnv : GoEnv :=
  { demoEnv with
    unmarshalInRequest := mismatchUnmarshalInRequest
    unmarshalResponse := singleUnmarshalResponse
    marshalResponse := ownerMarshalResponse }

/-- The state before a query whose request payload is not JSON. -/
def garbledWorld : World :=
  { stub := { args := ["readSample", "not json"], state := [], events := [] }, calls := [] }

/-- The state before a query whose request payload is `mismatchPayload`. -/
def mismatchWorld : World :=
  { stub := { args := ["readSample", mismatchPayload], state := [], events := [] }, calls := [] }

/-! # Theorems -/

/-! ## The response filter -/

/-- On a record with an asset entry the filter returns, with a nil error, a
record whose `Asset` holds the filtered copy of the first entry. -/
theorem filterQueryResponse_cons (respFull : ResponseStruct) (caller : String)
    (a : AssetRecord) (rest : List AssetRecord) (h : respFull.AssetState.Asset = a :: rest) :
    ∃ b, filterQueryResponse respFull caller
        = Go.ret ({ respFull with AssetState := { Asset := [b] } }, none) ∧
      filteredEntry respFull caller = some b := by
  unfold filteredEntry filterQueryResponse
  rw [h]
  exact ⟨_, rfl, rfl⟩

/-- Claim C3: for caller `"AF"` and a record with at least one asset entry, the
filter returns normally and the asset entry it returns has `MatnrAf`,
`PoSupp`, `DmaDelDate`, `SuppTest`, `GrDma` and `DmaCert.Cert` empty and every
other field, `AssetId` included, equal to the input entry's. -/
theorem filterQueryResponse_AF_exact (respFull : ResponseStruct) (a : AssetRecord)
    (rest : List AssetRecord) (h : respFull.AssetState.Asset = a :: rest) :
    ∃ out, filterQueryResponse respFull "AF" = Go.ret (out, none) ∧
      out.AssetState.Asset.head? = some
        { TransactionType := a.TransactionType, OwnerId := a.OwnerId, AssetId := a.AssetId,
          MatnrAf := "", PoDma := a.PoDma, PoSupp := "", DmaDelDate := "",
          AfDelDate := a.AfDelDate, TruckMod := a.TruckMod, TruckPDate := a.TruckPDate,
          TruckChnum := a.TruckChnum, TruckEnnum := a.TruckEnnum, SuppTest := "",
          GrDma := "", GrAf := a.GrAf, DmaMasdat := a.DmaMasdat, AfDmaTest := a.AfDmaTest,
          DmaCert := { Cert := "" }, AfDoc := a.AfDoc, Caller := a.Caller,
          V5cid := a.V5cid } := by
  unfold filterQueryResponse
  rw [h]
  exact ⟨_, rfl, rfl⟩

/-- The AF filter at the sample record: the first entry keeps its key and the
fields AF may see. -/
theorem filterQueryResponse_AF_exact_witness :
    ∃ out, filterQueryResponse sampleResponse "AF" = Go.ret (out, none) ∧
      out.AssetState.Asset.head? = some
        { TransactionType := "create", OwnerId := "owner1", AssetId := "A-7",
          MatnrAf := "", PoDma := "po1", PoSupp := "", DmaDelDate := "",
          AfDelDate := "d2", TruckMod := "t1", TruckPDate := "t2",
          TruckChnum := "t3", TruckEnnum := "t4", SuppTest := "",
          GrDma := "", GrAf := "g2", DmaMasdat := "md", AfDmaTest := "at",
          DmaCert := { Cert := "" }, AfDoc := "doc", Caller := "DMA",
          V5cid := "v5" } :=
  filterQueryResponse_AF_exact sampleResponse _ _ rfl

/-- Claim C4: for every caller string and every record with at least one asset
entry, the asset entry the filter returns has the `AssetId` of the input
entry. -/
theorem filterQueryResponse_keeps_AssetId (respFull : ResponseStruct) (caller : String)
    (a : AssetRecord) (rest : List AssetRecord) (h : respFull.AssetState.Asset = a :: rest) :
    ∃ out b, filterQueryResponse respFull caller = Go.ret (out, none) ∧
      out.AssetState.Asset.head? = some b ∧ b.AssetId = a.AssetId := by
  unfold filterQueryResponse
  rw [h]
  refine ⟨_, _, rfl, rfl, ?_⟩
  dsimp only
  split_ifs <;> rfl

/-- The key `A-7` of the sample record survives the filter for an unlisted
caller. -/
theorem filterQueryResponse_keeps_AssetId_witness :
    ∃ out b, filterQueryResponse sampleResponse "Auditor" = Go.ret (out, none) ∧
      out.AssetState.Asset.head? = some b ∧ b.AssetId = "A-7" :=
  filterQueryResponse_keeps_AssetId sampleResponse "Auditor" _ _ rfl

/-- For a caller outside the four named roles the filtered entry is the zero
record carrying the input entry's `AssetId`. -/
theorem filteredEntry_unlisted (respFull : ResponseStruct) (caller : String)
    (a : AssetRecord) (rest : List AssetRecord) (h : respFull.AssetState.Asset = a :: rest)
    (hAF : caller ≠ "AF") (hDMA : caller ≠ "DMA") (hSup : caller ≠ "Supplier")
    (hTr : caller ≠ "Transporter") :
    filteredEntry respFull caller = some { AssetRecord.zero with AssetId := a.AssetId } := by
  unfold filteredEntry filterQueryResponse
  rw [h]
  simp only [hAF, hDMA, hSup, hTr, if_false, List.head?_cons]
  rfl

/-- A caller outside the four named roles has every field but `AssetId`
cleared. -/
theorem clears_unlisted (caller : String) (hAF : caller ≠ "AF") (hDMA : caller ≠ "DMA")
    (hSup : caller ≠ "Supplier") (hTr : caller ≠ "Transporter") (f : AssetField)
    (hf : f ≠ AssetField.AssetId) : Clears caller f := by
  intro respFull hne
  cases hA : respFull.AssetState.Asset with
  | nil => exact absurd hA hne
  | cons a rest =>
    refine ⟨_, filteredEntry_unlisted respFull caller a rest hA hAF hDMA hSup hTr, ?_⟩
    cases f <;> first | rfl | exact absurd rfl hf

/-- A cleared field is empty in the filtered probe record. -/
theorem clears_probe {caller : String} {f : AssetField} (h : Clears caller f) :
    (filteredEntry probeResponse caller).map (fun b => b.field f) = some "" := by
  obtain ⟨b, hb, hf⟩ := h probeResponse (by decide)
  rw [hb]
  simp [hf]

/-- Claim C5: for a caller that is none of `AF`, `DMA`, `Supplier`,
`Transporter`, the fields the filter clears form a strict superset of the
fields it clears for each of the four named roles, and they include `PoDma`,
`AfDelDate` and `OwnerId`, which `AF` retains. -/
theorem unlisted_caller_clears_strict_superset (caller : String) (hAF : caller ≠ "AF")
    (hDMA : caller ≠ "DMA") (hSup : caller ≠ "Supplier") (hTr : caller ≠ "Transporter")
    (role : String)
    (hrole : role = "AF" ∨ role = "DMA" ∨ role = "Supplier" ∨ role = "Transporter") :
    (∀ f, Clears role f → Clears caller f) ∧
    (∃ f, Clears caller f ∧ ¬ Clears role f) ∧
    (Clears caller AssetField.PoDma ∧ ¬ Clears "AF" AssetField.PoDma) ∧
    (Clears caller AssetField.AfDelDate ∧ ¬ Clears "AF" AssetField.AfDelDate) ∧
    (Clears caller AssetField.OwnerId ∧ ¬ Clears "AF" AssetField.OwnerId) := by
  have hall : ∀ f, f ≠ AssetField.AssetId → Clears caller f :=
    fun f hf => clears_unlisted caller hAF hDMA hSup hTr f hf
  refine ⟨?_, ⟨AssetField.OwnerId, hall _ (by decide), ?_⟩,
    ⟨hall _ (by decide), fun h => absurd (clears_probe h) (by decide)⟩,
    ⟨hall _ (by decide), fun h => absurd (clears_probe h) (by decide)⟩,
    ⟨hall _ (by decide), fun h => absurd (clears_probe h) (by decide)⟩⟩
  · intro f hf
    by_cases hid : f = AssetField.AssetId
    · subst hid
      rcases hrole with rfl | rfl | rfl | rfl <;>
        exact absurd (clears_probe hf) (by decide)
    · exact hall f hid
  · intro h
    rcases hrole with rfl | rfl | rfl | rfl <;>
      exact absurd (clears_probe h) (by decide)

/-- The caller `Auditor` against the role `Transporter`, the named role with
the largest cleared set. -/
theorem unlisted_caller_clears_strict_superset_witness :
    (∀ f, Clears "Transporter" f → Clears "Auditor" f) ∧
    (∃ f, Clears "Auditor" f ∧ ¬ Clears "Transporter" f) ∧
    (Clears "Auditor" AssetField.PoDma ∧ ¬ Clears "AF" AssetField.PoDma) ∧
    (Clears "Auditor" AssetField.AfDelDate ∧ ¬ Clears "AF" AssetField.AfDelDate) ∧
    (Clears "Auditor" AssetField.OwnerId ∧ ¬ Clears "AF" AssetField.OwnerId) :=
  unlisted_caller_clears_strict_superset "Auditor" (by decide) (by decide) (by decide)
    (by decide) "Transporter" (Or.inr (Or.inr (Or.inr rfl)))

/-- On a record with no asset entry the filter faults at `Asset[0]`. -/
theorem filterQueryResponse_faults_on_empty_aux (respFull : ResponseStruct) (caller : String)
    (h : respFull.AssetState.Asset = []) :
    filterQueryResponse respFull caller
      = Go.panic "runtime error: index out of range [0] with length 0" := by
  unfold filterQueryResponse
  rw [h]

/-- Claim C6, where the code departs from it: on a record with no asset entry the
filter does not return, it faults at `Asset[0]`, for every caller; and
`Query` faults with it whenever the bytes of a successful handler decode to
such a record, instead of returning the encoded empty response. -/
theorem filterQueryResponse_faults_on_empty (respFull : ResponseStruct) (caller : String)
    (h : respFull.AssetState.Asset = []) :
    filterQueryResponse respFull caller
        = Go.panic "runtime error: index out of range [0] with length 0" ∧
    ∀ (env : GoEnv) (router : Router) (w : World) (function : String) (args : List String)
      (a1 : String) (r : ChaincodeRoute),
      w.stub.args.get? 1 = some a1 → router.get function = some r →
      (r.Function.apply env router w.stub args).2.2 = none →
      (env.unmarshalResponse (r.Function.apply env router w.stub args).2.1).1 = respFull →
      (env.unmarshalInRequest a1).1.Asset.Caller = caller →
      (Query env router w function args).2
        = Go.panic "runtime error: index out of range [0] with length 0" := by
  have hf := filterQueryResponse_faults_on_empty_aux respFull caller h
  refine ⟨hf, ?_⟩
  intro env router w function args a1 r hargs hr herr hdec hcaller
  unfold Query World.call
  rw [hargs]
  simp only [hr]
  rcases hcall : r.Function.apply env router w.stub args with ⟨stub1, result, err⟩
  rw [hcall] at herr hdec
  simp only at herr hdec
  subst herr
  simp only [hdec, hcaller, hf]

/-- The record with only an asset key, for caller `AF`: the filter faults, and
so does the query `readKey`, whose handler succeeds with bytes that decode
without error. -/
theorem filterQueryResponse_faults_on_empty_witness :
    filterQueryResponse { ResponseStruct.zero with AssetKey := "TR-7" } "AF"
        = Go.panic "runtime error: index out of range [0] with length 0" ∧
    (Query demoEnv demoRouter demoWorld "readKey" []).2
        = Go.panic "runtime error: index out of range [0] with length 0" :=
  ⟨(filterQueryResponse_faults_on_empty { ResponseStruct.zero with AssetKey := "TR-7" } "AF"
      rfl).1,
    (filterQueryResponse_faults_on_empty { ResponseStruct.zero with AssetKey := "TR-7" } "AF"
      rfl).2 demoEnv demoRouter demoWorld "readKey" []
      "\x7b\"Asset\":\x7b\"caller\":\"AF\"\x7d\x7d"
      { FunctionName := "readKey", Method := "query", Class := truckClass,
        Function := keyOnlyHandler }
      rfl rfl rfl (by decide) (by decide)⟩

/-- The loop of `readAllRoutes` builds one `RoutesOut` per visited route. -/
theorem foldl_routesOut (l : List ChaincodeRoute) (acc : List RoutesOut) :
    l.foldl
        (fun r route =>
          r ++ [({ FunctionName := route.FunctionName, Method := route.Method,
                   Class := route.Class } : RoutesOut)])
        acc
      = acc ++ l.map (fun route =>
          ({ FunctionName := route.FunctionName, Method := route.Method,
             Class := route.Class } : RoutesOut)) := by
  induction l generalizing acc with
  | nil => simp
  | cons x xs ih => simp [List.foldl_cons, ih]

/-- Claim C7, where the code departs from it: the handler `readAllRoutes` does
produce the encoding of one entry per registered route, with the route's
function name, method and class; but `Query` decodes these bytes into a
`ResponseStruct`, and as a JSON array leaves that record without an asset
entry, `Query` faults at `Asset[0]` instead of returning the array. -/
theorem Query_readAllRoutes_faults (env : GoEnv) (router : Router) (w : World)
    (args : List String) (a1 : String) (r : ChaincodeRoute) (bytes : String)
    (hargs : w.stub.args.get? 1 = some a1)
    (hr : router.get "readAllRoutes" = some r)
    (hf : r.Function = ChaincodeFunc.readAllRoutes)
    (hm : (readAllRoutes env router w.stub args).2 = (bytes, none))
    (hdec : (env.unmarshalResponse bytes).1.AssetState.Asset = []) :
    (∃ l : List RoutesOut,
      l.Perm (router.map (fun kr =>
        ({ FunctionName := kr.2.FunctionName, Method := kr.2.Method,
           Class := kr.2.Class } : RoutesOut))) ∧
      env.marshalRoutes l = (bytes, none)) ∧
    Query env router w "readAllRoutes" args
      = ({ stub := w.stub, calls := w.calls ++ [ChaincodeFunc.readAllRoutes] },
         Go.panic "runtime error: index out of range [0] with length 0") := by
  constructor
  · refine ⟨_, ?_, hm⟩
    rw [foldl_routesOut, List.nil_append]
    have hp := (env.range_perm router).map (fun route : ChaincodeRoute =>
      ({ FunctionName := route.FunctionName, Method := route.Method,
         Class := route.Class } : RoutesOut))
    rw [List.map_map] at hp
    exact hp
  · have hcall : r.Function.apply env router w.stub args = (w.stub, bytes, none) := by
      rw [hf]
      show readAllRoutes env router w.stub args = (w.stub, bytes, none)
      have h1 : (readAllRoutes env router w.stub args).1 = w.stub := rfl
      exact Prod.ext h1 hm
    have hfilter := (filterQueryResponse_faults_on_empty_aux
      (env.unmarshalResponse bytes).1 (env.unmarshalInRequest a1).1.Asset.Caller hdec)
    rw [hf] at hcall
    unfold Query World.call
    rw [hargs]
    simp only [hr, hf, hcall, hfilter]

/-- The registry of the concrete inputs: the handler lists its eight routes,
and the query that asks for them faults. -/
theorem Query_readAllRoutes_faults_witness :
    (∃ l : List RoutesOut,
      l.Perm (demoRouter.map (fun kr =>
        ({ FunctionName := kr.2.FunctionName, Method := kr.2.Method,
           Class := kr.2.Class } : RoutesOut))) ∧
      demoEnv.marshalRoutes l
        = ("[readAllRoutes,deployA,deployB,f,g,m,readSample,readKey]", none)) ∧
    Query demoEnv demoRouter demoWorld "readAllRoutes" []
      = ({ stub := demoStub, calls := [ChaincodeFunc.readAllRoutes] },
         Go.panic "runtime error: index out of range [0] with length 0") :=
  Query_readAllRoutes_faults demoEnv demoRouter demoWorld []
    "\x7b\"Asset\":\x7b\"caller\":\"AF\"\x7d\x7d"
    { FunctionName := "readAllRoutes", Method := "query", Class := demoSystemClass,
      Function := ChaincodeFunc.readAllRoutes }
    "[readAllRoutes,deployA,deployB,f,g,m,readSample,readKey]"
    rfl rfl rfl (by decide) (by decide)

/-! ## The registry -/

/-- Claim C8: when the registry already holds a route under `functionName`,
`AddRoute` returns a non-nil error and the registry it leaves is the registry
it was given, so the route under `functionName` is still the original one. -/
theorem AddRoute_duplicate_refused (router : Router) (functionName method : String)
    (cls : AssetClass) (function : ChaincodeFunc) (r : ChaincodeRoute)
    (h : router.get functionName = some r) :
    (∃ e, AddRoute router functionName method cls function = (router, some e)) ∧
    (AddRoute router functionName method cls function).1.get functionName = some r := by
  unfold AddRoute
  rw [h]
  exact ⟨⟨_, rfl⟩, h⟩

/-- Registering `f` a second time, as a query of another class with another
handler, is refused and leaves the sample registry as it was. -/
theorem AddRoute_duplicate_refused_witness :
    (∃ e, AddRoute demoRouter "f" "query" demoSystemClass quietHandler = (demoRouter, some e)) ∧
    (AddRoute demoRouter "f" "query" demoSystemClass quietHandler).1.get "f"
      = some { FunctionName := "f", Method := "invoke", Class := truckClass,
               Function := boomHandler } :=
  AddRoute_duplicate_refused demoRouter "f" "query" demoSystemClass quietHandler _ rfl

/-! ## The result event -/

/-- The map read after a map assignment. -/
theorem JMap.get_set (m : JMap) (k : String) (v : JValue) (k1 : String) :
    JMap.get (JMap.set m k v) k1 = if k = k1 then some v else JMap.get m k1 := by
  induction m with
  | nil => simp [JMap.set, JMap.get]
  | cons p rest ih =>
    obtain ⟨k0, v0⟩ := p
    by_cases h0 : k0 = k
    · subst h0
      simp only [JMap.set, if_true, JMap.get]
      split_ifs <;> rfl
    · simp only [JMap.set, if_neg h0, JMap.get, ih]
      by_cases h1 : k = k1
      · subst h1
        rw [if_neg h0, if_pos rfl, if_pos rfl]
      · rw [if_neg h1, if_neg h1]

/-- What `setStubEvent` does to the stub: one event is added to the events
set so far, under the fixed name and with the result payload; the arguments
and the world state are untouched. -/
theorem setStubEvent_eq (stub : Stub) (err : Option String) (info : Option JMap) :
    setStubEvent stub err info
      = { stub with
          events := stub.events ++ [{ name := EVTCCINVRESULT, payload := resultPayload err info }] } := by
  cases err <;> cases info <;> rfl

/-- `Invoke` on a name that is not registered. -/
theorem Invoke_not_found (env : GoEnv) (router : Router) (w : World) (function : String)
    (args : List String) (hr : router.get function = none) :
    Invoke env router w function args
      = (w.report (some ("$NIHAL$Invoke did not find registered invoke function " ++ function))
            none,
         "", some ("$NIHAL$Invoke did not find registered invoke function " ++ function)) := by
  unfold Invoke
  simp only [hr]

/-- `Invoke` on a route whose handler returns an error. -/
theorem Invoke_handler_error (env : GoEnv) (router : Router) (w : World) (function : String)
    (args : List String) (r : ChaincodeRoute) (stub1 : Stub) (bytes e : String)
    (hr : router.get function = some r)
    (hcall : r.Function.apply env router w.stub args = (stub1, bytes, some e)) :
    Invoke env router w function args
      = (World.report { stub := stub1, calls := w.calls ++ [r.Function] }
            (some ("Invoke (" ++ function ++ ") failed with error " ++ e)) none,
         "", some ("Invoke (" ++ function ++ ") failed with error " ++ e)) := by
  unfold Invoke World.call
  simp only [hr, hcall]

/-- `Invoke` on a route whose handler succeeds with no bytes. -/
theorem Invoke_no_bytes (env : GoEnv) (router : Router) (w : World) (function : String)
    (args : List String) (r : ChaincodeRoute) (stub1 : Stub) (bytes : String)
    (hr : router.get function = some r)
    (hcall : r.Function.apply env router w.stub args = (stub1, bytes, none))
    (hlen : bytes.length = 0) :
    Invoke env router w function args
      = (World.report { stub := stub1, calls := w.calls ++ [r.Function] } none none, "", none) := by
  unfold Invoke World.call
  simp only [hr, hcall, hlen, if_true]

/-- `Invoke` on a route whose handler succeeds with bytes that do not decode
to a map. -/
theorem Invoke_bad_bytes (env : GoEnv) (router : Router) (w : World) (function : String)
    (args : List String) (r : ChaincodeRoute) (stub1 : Stub) (bytes e : String)
    (hr : router.get function = some r)
    (hcall : r.Function.apply env router w.stub args = (stub1, bytes, none))
    (hlen : bytes.length ≠ 0) (hdec : env.unmarshalMap bytes = Except.error e) :
    Invoke env router w function args
      = (World.report { stub := stub1, calls := w.calls ++ [r.Function] }
            (some ("Invoke (" ++ function
              ++ ") failed to marshal returned event to report with error " ++ e
              ++ ", remember that chaincode events should be maps")) none,
         "",
         some ("Invoke (" ++ function
              ++ ") failed to marshal returned event to report with error " ++ e
              ++ ", remember that chaincode events should be maps")) := by
  unfold Invoke World.call
  simp only [hr, hcall, hlen, if_false, hdec]

/-- `Invoke` on a route whose handler succeeds with bytes that decode. -/
theorem Invoke_decoded (env : GoEnv) (router : Router) (w : World) (function : String)
    (args : List String) (r : ChaincodeRoute) (stub1 : Stub) (bytes : String)
    (eventMap : Option JMap) (hr : router.get function = some r)
    (hcall : r.Function.apply env router w.stub args = (stub1, bytes, none))
    (hlen : bytes.length ≠ 0) (hdec : env.unmarshalMap bytes = Except.ok eventMap) :
    Invoke env router w function args
      = (World.report { stub := stub1, calls := w.calls ++ [r.Function] } none eventMap,
         "", none) := by
  unfold Invoke World.call
  simp only [hr, hcall, hlen, if_false, hdec]

/-- The events after a call site of `setStubEvent`. -/
theorem World.report_events (w : World) (err : Option String) (info : Option JMap) :
    (w.report err info).stub.events
      = w.stub.events ++ [{ name := EVTCCINVRESULT, payload := resultPayload err info }] := by
  unfold World.report
  rw [setStubEvent_eq]

/-- The stub the handler leaves, when a route is registered. -/
theorem stubAfterHandler_some (env : GoEnv) (router : Router) (w : World) (function : String)
    (args : List String) (r : ChaincodeRoute) (stub1 : Stub) (out : String × Option String)
    (hr : router.get function = some r)
    (hcall : r.Function.apply env router w.stub args = (stub1, out)) :
    stubAfterHandler env router w function args = stub1 := by
  unfold stubAfterHandler
  simp only [hr, hcall]

/-- The stub is the incoming one when no route is registered. -/
theorem stubAfterHandler_none (env : GoEnv) (router : Router) (w : World) (function : String)
    (args : List String) (hr : router.get function = none) :
    stubAfterHandler env router w function args = w.stub := by
  unfold stubAfterHandler
  simp only [hr]

/-- Claim C1: every call of `Invoke` adds exactly one event, under the name
`EVTCCINVRESULT`, to the events the handler left on the stub (the events of
the incoming stub when no route is registered under the name): whether the
name is unregistered, the handler fails, succeeds with no bytes, with bytes
that decode to a map or with bytes that do not. -/
theorem Invoke_publishes_one_event (env : GoEnv) (router : Router) (w : World)
    (function : String) (args : List String) :
    ∃ payload : JMap,
      (Invoke env router w function args).1.stub.events
        = (stubAfterHandler env router w function args).events
            ++ [{ name := EVTCCINVRESULT, payload := payload }] := by
  cases hr : router.get function with
  | none =>
    rw [Invoke_not_found env router w function args hr,
      stubAfterHandler_none env router w function args hr]
    exact ⟨_, World.report_events _ _ _⟩
  | some r =>
    rcases hcall : r.Function.apply env router w.stub args with ⟨stub1, bytes, err⟩
    rw [stubAfterHandler_some env router w function args r stub1 _ hr hcall]
    cases err with
    | some e =>
      rw [Invoke_handler_error env router w function args r stub1 bytes e hr hcall]
      exact ⟨_, World.report_events _ _ _⟩
    | none =>
      by_cases hlen : bytes.length = 0
      · rw [Invoke_no_bytes env router w function args r stub1 bytes hr hcall hlen]
        exact ⟨_, World.report_events _ _ _⟩
      · cases hdec : env.unmarshalMap bytes with
        | error e =>
          rw [Invoke_bad_bytes env router w function args r stub1 bytes e hr hcall hlen hdec]
          exact ⟨_, World.report_events _ _ _⟩
        | ok eventMap =>
          rw [Invoke_decoded env router w function args r stub1 bytes eventMap hr hcall hlen
            hdec]
          exact ⟨_, World.report_events _ _ _⟩

/-- Claim C2, refuted as stated: the handler of route `f` fails with the
message `boom`, and the one event `Invoke` publishes carries the message
`Invoke (f) failed with error boom`, not `boom`; its payload is not the map
with status `ERROR` and message `boom`. -/
theorem Invoke_error_message_is_wrapped :
    boomHandler.apply demoEnv demoRouter demoStub [] = (demoStub, "", some "boom") ∧
    ∃ ev : Event, (Invoke demoEnv demoRouter demoWorld "f" []).1.stub.events = [ev] ∧
      ev.payload.get "message" = some (JValue.string "Invoke (f) failed with error boom") ∧
      ev.payload.get "message" ≠ some (JValue.string "boom") := by
  refine ⟨rfl, ⟨_, rfl, rfl, ?_⟩⟩
  show some (JValue.string "Invoke (f) failed with error boom") ≠ some (JValue.string "boom")
  intro h
  injection h with h
  injection h with h
  exact absurd h (by decide)

/-- Claim C2, as amended: for a registered operation, when the handler succeeds
with bytes (not empty, as any text that decodes is) that decode to a map `m`,
the payload of the event `Invoke`
publishes is `m` with the key `status` set to `OK`; when the handler fails
with the message `e`, the payload holds exactly the two keys `status`, set to
`ERROR`, and `message`, set to `Invoke (<function>) failed with error <e>`. -/
theorem Invoke_payload (env : GoEnv) (router : Router) (w : World) (function : String)
    (args : List String) (r : ChaincodeRoute) (hr : router.get function = some r) :
    (∀ (stub1 : Stub) (bytes : String) (m : JMap),
      r.Function.apply env router w.stub args = (stub1, bytes, none) →
      bytes.length ≠ 0 → env.unmarshalMap bytes = Except.ok (some m) →
      (Invoke env router w function args).1.stub.events
        = stub1.events
            ++ [{ name := EVTCCINVRESULT,
                  payload := JMap.set m "status" (JValue.string "OK") }]) ∧
    (∀ (stub1 : Stub) (bytes e : String),
      r.Function.apply env router w.stub args = (stub1, bytes, some e) →
      (Invoke env router w function args).1.stub.events
        = stub1.events
            ++ [{ name := EVTCCINVRESULT,
                  payload :=
                    [("status", JValue.string "ERROR"),
                     ("message",
                       JValue.string ("Invoke (" ++ function ++ ") failed with error " ++ e))] }]) := by
  constructor
  · intro stub1 bytes m hcall hlen hdec
    rw [Invoke_decoded env router w function args r stub1 bytes (some m) hr hcall hlen hdec]
    exact World.report_events _ _ _
  · intro stub1 bytes e hcall
    rw [Invoke_handler_error env router w function args r stub1 bytes e hr hcall]
    exact World.report_events _ _ _

/-- The routes `g` and `f` of the sample registry: the payload `x = 1` of `g`
is published with the added status `OK`, the failure `boom` of `f` as status
`ERROR` with the wrapped message. -/
theorem Invoke_payload_witness :
    (Invoke demoEnv demoRouter demoWorld "g" []).1.stub.events
      = [{ name := EVTCCINVRESULT,
           payload := [("x", JValue.number "1"), ("status", JValue.string "OK")] }] ∧
    (Invoke demoEnv demoRouter demoWorld "f" []).1.stub.events
      = [{ name := EVTCCINVRESULT,
           payload :=
             [("status", JValue.string "ERROR"),
              ("message", JValue.string "Invoke (f) failed with error boom")] }] :=
  ⟨(Invoke_payload demoEnv demoRouter demoWorld "g" []
      { FunctionName := "g", Method := "invoke", Class := truckClass, Function := xHandler }
      rfl).1 demoStub "\x7b\"x\":1\x7d" [("x", JValue.number "1")] rfl (by decide) rfl,
   (Invoke_payload demoEnv demoRouter demoWorld "f" []
      { FunctionName := "f", Method := "invoke", Class := truckClass, Function := boomHandler }
      rfl).2 demoStub "" "boom" rfl⟩

/-! ## Deploy -/

/-- The loop of `getDeployFunctions` collects the handlers of the deploy
routes among the visited routes, in the order of the visit. -/
theorem foldl_deploy (l : List ChaincodeRoute) (acc : List ChaincodeFunc) :
    l.foldl (fun results r => if r.Method = "deploy" then results ++ [r.Function] else results)
        acc
      = acc ++ (l.filter (fun r => decide (r.Method = "deploy"))).map (fun r => r.Function) := by
  induction l generalizing acc with
  | nil => simp
  | cons x xs ih =>
    by_cases hx : x.Method = "deploy"
    · simp [List.foldl_cons, ih, hx]
    · simp [List.foldl_cons, ih, hx]

/-- The deploy handlers `Init` runs are the registered deploy handlers, each
as often as it is registered, in the order of the map iteration. -/
theorem getDeployFunctions_perm (env : GoEnv) (router : Router) :
    (getDeployFunctions env router).Perm (deployHandlers router) := by
  unfold getDeployFunctions deployHandlers
  rw [foldl_deploy, List.nil_append]
  exact ((env.range_perm router).filter _).map _

/-- Running a list of handlers and then one more. -/
theorem runHandlers_append (env : GoEnv) (router : Router) (args : List String)
    (pre : List ChaincodeFunc) (f : ChaincodeFunc) (stub : Stub) :
    runHandlers env router args (pre ++ [f]) stub
      = (f.apply env router (runHandlers env router args pre stub) args).1 := by
  induction pre generalizing stub with
  | nil => rfl
  | cons g gs ih => exact ih _

/-- The loop of `Init` when every handler succeeds: all of them are called,
in order, and the success event is set on the stub they leave. -/
theorem InitLoop_all_succeed (env : GoEnv) (router : Router) (function : String)
    (iargs : List String) (fs : List ChaincodeFunc) (w : World)
    (h : AllSucceed env router iargs fs w.stub) :
    InitLoop env router function iargs fs w
      = (World.report
            { stub := runHandlers env router iargs fs w.stub, calls := w.calls ++ fs } none none,
         "", none) := by
  induction fs generalizing w with
  | nil => simp [InitLoop, runHandlers]
  | cons f fs ih =>
    obtain ⟨h1, h2⟩ := h
    rcases hcall : f.apply env router w.stub iargs with ⟨stub1, bytes, err⟩
    rw [hcall] at h1 h2
    simp only at h1 h2
    subst h1
    unfold InitLoop World.call
    simp only [hcall]
    rw [ih { stub := stub1, calls := w.calls ++ [f] } h2]
    simp [runHandlers, hcall]

/-- The loop of `Init` when the handlers `pre` succeed and the next one, `f`,
fails with `e`: the handlers called are `pre` and `f`, none of `post`, and the
error is the wrapped `e`. -/
theorem InitLoop_first_failure (env : GoEnv) (router : Router) (function : String)
    (iargs : List String) (pre : List ChaincodeFunc) (f : ChaincodeFunc)
    (post : List ChaincodeFunc) (e : String) (w : World)
    (hpre : AllSucceed env router iargs pre w.stub)
    (hf : (f.apply env router (runHandlers env router iargs pre w.stub) iargs).2.2 = some e) :
    InitLoop env router function iargs (pre ++ f :: post) w
      = (World.report
            { stub := runHandlers env router iargs (pre ++ [f]) w.stub,
              calls := w.calls ++ (pre ++ [f]) }
            (some ("Init (" ++ function ++ ") failed with error " ++ e)) none,
         "", some ("Init (" ++ function ++ ") failed with error " ++ e)) := by
  induction pre generalizing w with
  | nil =>
    rcases hcall : f.apply env router w.stub iargs with ⟨stub1, bytes, err⟩
    simp only [runHandlers, hcall] at hf
    subst hf
    simp only [List.nil_append]
    unfold InitLoop World.call
    simp only [hcall, runHandlers]
  | cons g gs ih =>
    obtain ⟨h1, h2⟩ := hpre
    rcases hcall : g.apply env router w.stub iargs with ⟨stub1, bytes, err⟩
    rw [hcall] at h1 h2
    simp only at h1 h2
    subst h1
    simp only [runHandlers, hcall] at hf
    simp only [List.cons_append]
    unfold InitLoop World.call
    simp only [hcall]
    rw [ih { stub := stub1, calls := w.calls ++ [g] } h2 hf]
    simp [runHandlers, hcall]

/-- A list of handlers either succeeds throughout or has a first handler that
fails. -/
theorem AllSucceed_or_first_failure (env : GoEnv) (router : Router) (iargs : List String)
    (fs : List ChaincodeFunc) (stub : Stub) :
    AllSucceed env router iargs fs stub ∨
      ∃ (pre : List ChaincodeFunc) (f : ChaincodeFunc) (post : List ChaincodeFunc) (e : String),
        fs = pre ++ f :: post ∧ AllSucceed env router iargs pre stub ∧
        (f.apply env router (runHandlers env router iargs pre stub) iargs).2.2 = some e := by
  induction fs generalizing stub with
  | nil => exact Or.inl trivial
  | cons g gs ih =>
    cases hg : (g.apply env router stub iargs).2.2 with
    | some e => exact Or.inr ⟨[], g, gs, e, rfl, trivial, hg⟩
    | none =>
      rcases ih (g.apply env router stub iargs).1 with hall | ⟨pre, f, post, e, hfs, hpre, hf⟩
      · exact Or.inl ⟨hg, hall⟩
      · exact Or.inr ⟨g :: pre, f, post, e, by rw [hfs]; rfl, ⟨hg, hpre⟩, hf⟩

/-- `Init` with an argument and at least one deploy handler is its loop. -/
theorem Init_cons (env : GoEnv) (router : Router) (w : World) (function a0 : String)
    (rest : List String) (ContractVersion : String) (h : getDeployFunctions env router ≠ []) :
    Init env router w function (a0 :: rest) ContractVersion
      = InitLoop env router function [a0, ContractVersion] (getDeployFunctions env router) w := by
  unfold Init
  have hlen : ¬ (getDeployFunctions env router).length = 0 := fun h0 =>
    h (List.length_eq_zero.mp h0)
  simp only [hlen, if_false]

/-- Claim C10, refuted as stated: in the sample registry the deploy route
`deployA` (handler `boomHandler`, which fails) is registered before `deployB`
(handler `versionHandler`). Under a map iteration that visits the routes
against the registration order, `Init` runs `versionHandler` first, then
`boomHandler`, and returns the error of `boomHandler`: a handler registered
after the failing one has been invoked and has written to the world state. -/
theorem Init_order_is_not_registration_order :
    deployHandlers demoRouter = [boomHandler, versionHandler] ∧
    (Init demoEnvRev demoRouter demoWorld "init" ["cfg"] "1.0").2.2
      = some "Init (init) failed with error boom" ∧
    (Init demoEnvRev demoRouter demoWorld "init" ["cfg"] "1.0").1.calls
      = [versionHandler, boomHandler] ∧
    (Init demoEnvRev demoRouter demoWorld "init" ["cfg"] "1.0").1.stub.state
      = [("version", "1.0")] :=
  ⟨rfl, rfl, rfl, rfl⟩

/-- Claim C10, as amended: the deploy handlers `Init` runs on a non-empty
argument list are the registered deploy handlers, each once, in the order in
which the map iteration visits the registry. When all of them succeed, each
is invoked exactly once and `Init` returns no error. When the handlers `pre`
succeed and the next one, `f`, fails with `e`, the handlers invoked are `pre`
and `f`, no handler after `f` in the order of the visit is invoked, and the
error `Init` returns ends in `e`. -/
theorem Init_runs_deploy_handlers (env : GoEnv) (router : Router) (w : World)
    (function a0 : String) (rest : List String) (ContractVersion : String) :
    (getDeployFunctions env router).Perm (deployHandlers router) ∧
    (getDeployFunctions env router ≠ [] →
      AllSucceed env router [a0, ContractVersion] (getDeployFunctions env router) w.stub →
      (Init env router w function (a0 :: rest) ContractVersion).2.2 = none ∧
      (Init env router w function (a0 :: rest) ContractVersion).1.calls
        = w.calls ++ getDeployFunctions env router) ∧
    (∀ (pre : List ChaincodeFunc) (f : ChaincodeFunc) (post : List ChaincodeFunc) (e : String),
      getDeployFunctions env router = pre ++ f :: post →
      AllSucceed env router [a0, ContractVersion] pre w.stub →
      (f.apply env router (runHandlers env router [a0, ContractVersion] pre w.stub)
          [a0, ContractVersion]).2.2 = some e →
      (Init env router w function (a0 :: rest) ContractVersion).2.2
        = some ("Init (" ++ function ++ ") failed with error " ++ e) ∧
      (Init env router w function (a0 :: rest) ContractVersion).1.calls
        = w.calls ++ (pre ++ [f])) := by
  refine ⟨getDeployFunctions_perm env router, ?_, ?_⟩
  · intro hne hall
    rw [Init_cons env router w function a0 rest ContractVersion hne,
      InitLoop_all_succeed env router function _ _ w hall]
    exact ⟨rfl, rfl⟩
  · intro pre f post e hfs hpre hf
    have hne : getDeployFunctions env router ≠ [] := by
      rw [hfs]
      exact fun h => absurd (congrArg List.length h) (by simp)
    rw [Init_cons env router w function a0 rest ContractVersion hne, hfs,
      InitLoop_first_failure env router function _ pre f post e w hpre hf]
    exact ⟨rfl, rfl⟩

/-- Two deploy runs under an iteration in registration order: in the registry
whose deploy handlers both succeed each is invoked once; in the sample
registry the first deploy handler fails and the second is not invoked. -/
theorem Init_runs_deploy_handlers_witness :
    ((Init demoEnv calmRouter demoWorld "init" ["cfg"] "1.0").2.2 = none ∧
      (Init demoEnv calmRouter demoWorld "init" ["cfg"] "1.0").1.calls
        = [quietHandler, versionHandler]) ∧
    ((Init demoEnv demoRouter demoWorld "init" ["cfg"] "1.0").2.2
        = some "Init (init) failed with error boom" ∧
      (Init demoEnv demoRouter demoWorld "init" ["cfg"] "1.0").1.calls = [boomHandler]) :=
  ⟨(Init_runs_deploy_handlers demoEnv calmRouter demoWorld "init" "cfg" [] "1.0").2.1
      (fun h => absurd (congrArg List.length h) (by decide)) ⟨rfl, rfl, trivial⟩,
   (Init_runs_deploy_handlers demoEnv demoRouter demoWorld "init" "cfg" [] "1.0").2.2
      [] boomHandler [versionHandler] "boom" rfl trivial rfl⟩

/-! ## Returned error and reported status -/

/-- The payload published without an extra payload: status `ERROR` exactly
when there is an error, whose text is then the message; otherwise the single
key `status`, set to `OK`. -/
theorem resultPayload_none (err : Option String) :
    (err ≠ none ↔ JMap.get (resultPayload err none) "status" = some (JValue.string "ERROR")) ∧
    (∀ e, err = some e → JMap.get (resultPayload err none) "message" = some (JValue.string e)) ∧
    (err = none → resultPayload err none = [("status", JValue.string "OK")]) := by
  cases err with
  | none =>
    refine ⟨⟨fun h => absurd rfl h, fun h => ?_⟩, (fun e h => by cases h), fun _ => rfl⟩
    have h1 : JMap.get (resultPayload none none) "status" = some (JValue.string "OK") := rfl
    rw [h1] at h
    injection h with h
    injection h with h
    exact absurd h (by decide)
  | some e =>
    refine ⟨⟨fun _ => rfl, (fun _ h => by cases h)⟩, fun e1 h => ?_, (fun h => by cases h)⟩
    injection h with h
    subst h
    rfl

/-- The world `Init` leaves: some handlers `cs` have been called, and the
outcome has been reported, without extra payload, on the stub they left. -/
theorem Init_event (env : GoEnv) (router : Router) (w : World) (function : String)
    (args : List String) (ContractVersion : String) :
    ∃ cs : List ChaincodeFunc,
      (Init env router w function args ContractVersion).1
        = World.report
            { stub := runHandlers env router [args.headD "", ContractVersion] cs w.stub,
              calls := w.calls ++ cs }
            (Init env router w function args ContractVersion).2.2 none := by
  cases args with
  | nil =>
    refine ⟨[], ?_⟩
    simp [Init, runHandlers]
  | cons a0 rest =>
    by_cases hfs : getDeployFunctions env router = []
    · refine ⟨[], ?_⟩
      simp [Init, runHandlers, hfs]
    · rw [Init_cons env router w function a0 rest ContractVersion hfs]
      rcases AllSucceed_or_first_failure env router [a0, ContractVersion]
          (getDeployFunctions env router) w.stub with hall | ⟨pre, f, post, e, hsplit, hpre, hf⟩
      · rw [InitLoop_all_succeed env router function _ _ w hall]
        exact ⟨_, rfl⟩
      · rw [hsplit, InitLoop_first_failure env router function _ pre f post e w hpre hf]
        exact ⟨_, rfl⟩

/-- The event `Invoke` publishes: the result payload for the error `Invoke`
returns and an extra payload that is present only when the call succeeds and
the handler's bytes decode to it. -/
theorem Invoke_event (env : GoEnv) (router : Router) (w : World) (function : String)
    (args : List String) :
    ∃ info : Option JMap,
      (Invoke env router w function args).1.stub.events
        = (stubAfterHandler env router w function args).events
            ++ [{ name := EVTCCINVRESULT,
                  payload := resultPayload (Invoke env router w function args).2.2 info }] ∧
      ((Invoke env router w function args).2.2 ≠ none → info = none) ∧
      (∀ m, info = some m →
        ∃ (r : ChaincodeRoute) (stub1 : Stub) (bytes : String),
          router.get function = some r ∧
          r.Function.apply env router w.stub args = (stub1, bytes, none) ∧
          env.unmarshalMap bytes = Except.ok (some m)) := by
  cases hr : router.get function with
  | none =>
    rw [Invoke_not_found env router w function args hr,
      stubAfterHandler_none env router w function args hr]
    exact ⟨none, World.report_events _ _ _, fun _ => rfl, (fun m h => by cases h)⟩
  | some r =>
    rcases hcall : r.Function.apply env router w.stub args with ⟨stub1, bytes, err⟩
    rw [stubAfterHandler_some env router w function args r stub1 _ hr hcall]
    cases err with
    | some e =>
      rw [Invoke_handler_error env router w function args r stub1 bytes e hr hcall]
      exact ⟨none, World.report_events _ _ _, fun _ => rfl, (fun m h => by cases h)⟩
    | none =>
      by_cases hlen : bytes.length = 0
      · rw [Invoke_no_bytes env router w function args r stub1 bytes hr hcall hlen]
        exact ⟨none, World.report_events _ _ _, fun _ => rfl, (fun m h => by cases h)⟩
      · cases hdec : env.unmarshalMap bytes with
        | error e =>
          rw [Invoke_bad_bytes env router w function args r stub1 bytes e hr hcall hlen hdec]
          exact ⟨none, World.report_events _ _ _, fun _ => rfl, (fun m h => by cases h)⟩
        | ok eventMap =>
          rw [Invoke_decoded env router w function args r stub1 bytes eventMap hr hcall hlen
            hdec]
          refine ⟨eventMap, World.report_events _ _ _, fun h => absurd rfl h, fun m h => ?_⟩
          subst h
          exact ⟨r, stub1, bytes, rfl, hcall, hdec⟩

/-- Claim C9, refuted as stated: the handler of route `m` succeeds with the
payload `message = hi`; `Invoke` returns no error and the one event it
publishes has status `OK` and does have a message field. -/
theorem Invoke_success_event_with_message :
    (Invoke demoEnv demoRouter demoWorld "m" []).2.2 = none ∧
    ∃ ev : Event, (Invoke demoEnv demoRouter demoWorld "m" []).1.stub.events = [ev] ∧
      ev.payload.get "status" = some (JValue.string "OK") ∧
      ev.payload.get "message" = some (JValue.string "hi") :=
  ⟨rfl, ⟨_, rfl, rfl, rfl⟩⟩

/-- Claim C9, as amended: a call of `Init` and a call of `Invoke` each publish
one event; the call returns a non-nil error exactly when that event has
status `ERROR`, and the event's message is then the text of the returned
error. When `Init` returns no error the event has status `OK` and no message
field. When `Invoke` returns no error the event has status `OK`, and it has a
message field only if the handler's bytes decode to a map that holds the key
`message`, whose value the event then carries. -/
theorem error_iff_error_event (env : GoEnv) (router : Router) (w : World)
    (function : String) (args : List String) (ContractVersion : String) :
    (∃ (cs : List ChaincodeFunc) (ev : Event),
      (Init env router w function args ContractVersion).1.calls = w.calls ++ cs ∧
      (Init env router w function args ContractVersion).1.stub.events
        = (runHandlers env router [args.headD "", ContractVersion] cs w.stub).events ++ [ev] ∧
      ev.name = EVTCCINVRESULT ∧
      ((Init env router w function args ContractVersion).2.2 ≠ none ↔
        ev.payload.get "status" = some (JValue.string "ERROR")) ∧
      (∀ e, (Init env router w function args ContractVersion).2.2 = some e →
        ev.payload.get "message" = some (JValue.string e)) ∧
      ((Init env router w function args ContractVersion).2.2 = none →
        ev.payload.get "status" = some (JValue.string "OK") ∧
        ev.payload.get "message" = none)) ∧
    (∃ ev : Event,
      (Invoke env router w function args).1.stub.events
        = (stubAfterHandler env router w function args).events ++ [ev] ∧
      ev.name = EVTCCINVRESULT ∧
      ((Invoke env router w function args).2.2 ≠ none ↔
        ev.payload.get "status" = some (JValue.string "ERROR")) ∧
      (∀ e, (Invoke env router w function args).2.2 = some e →
        ev.payload.get "message" = some (JValue.string e)) ∧
      ((Invoke env router w function args).2.2 = none →
        ev.payload.get "status" = some (JValue.string "OK") ∧
        ∀ v, ev.payload.get "message" = some v →
          ∃ (r : ChaincodeRoute) (stub1 : Stub) (bytes : String) (m : JMap),
            router.get function = some r ∧
            r.Function.apply env router w.stub args = (stub1, bytes, none) ∧
            env.unmarshalMap bytes = Except.ok (some m) ∧
            JMap.get m "message" = some v)) := by
  constructor
  · obtain ⟨cs, hcs⟩ := Init_event env router w function args ContractVersion
    obtain ⟨hiff, hmsg, hok⟩ :=
      resultPayload_none (Init env router w function args ContractVersion).2.2
    refine ⟨cs, { name := EVTCCINVRESULT,
                  payload := resultPayload
                    (Init env router w function args ContractVersion).2.2 none },
      ?_, ?_, rfl, hiff, hmsg, fun h => ?_⟩
    · rw [hcs]; rfl
    · rw [hcs]; exact World.report_events _ _ _
    · have hp := hok h
      show JMap.get (resultPayload _ none) "status" = _ ∧ JMap.get (resultPayload _ none) "message" = _
      rw [hp]
      exact ⟨rfl, rfl⟩
  · obtain ⟨info, hev, hnone, hsome⟩ := Invoke_event env router w function args
    refine ⟨_, hev, rfl, ?_⟩
    show (_ ↔ JMap.get (resultPayload _ info) "status" = _) ∧
      (∀ e, _ → JMap.get (resultPayload _ info) "message" = _) ∧
      (_ → JMap.get (resultPayload _ info) "status" = _ ∧
        ∀ v, JMap.get (resultPayload _ info) "message" = some v → _)
    cases herr : (Invoke env router w function args).2.2 with
    | some e =>
      have hinfo : info = none := hnone (by rw [herr]; exact fun h => by cases h)
      subst hinfo
      obtain ⟨hiff, hmsg, _⟩ := resultPayload_none (some e)
      exact ⟨hiff, hmsg, (fun h => by cases h)⟩
    | none =>
      have hstatus : JMap.get (resultPayload none info) "status"
          = some (JValue.string "OK") := by
        unfold resultPayload
        simp only
        rw [JMap.get_set, if_pos rfl]
      have hmessage : JMap.get (resultPayload none info) "message"
          = JMap.get (info.getD []) "message" := by
        unfold resultPayload
        simp only
        rw [JMap.get_set, if_neg (by decide)]
      refine ⟨⟨fun h => absurd rfl h, fun h => ?_⟩, (fun e h => by cases h), fun _ => ⟨hstatus, ?_⟩⟩
      · rw [hstatus] at h
        injection h with h
        injection h with h
        exact absurd h (by decide)
      · intro v hv
        rw [hmessage] at hv
        cases info with
        | none => cases hv
        | some m =>
          obtain ⟨r, stub1, bytes, h1, h2, h3⟩ := hsome m rfl
          exact ⟨r, stub1, bytes, m, h1, h2, h3, hv⟩

/-! ## More on the response filter -/

/-- Claim C14: for every caller and every record with at least one asset entry,
filtering the filtered record again for the same caller returns the same
record. -/
theorem filterQueryResponse_idempotent (respFull : ResponseStruct) (caller : String)
    (h : respFull.AssetState.Asset ≠ []) :
    ∃ out, filterQueryResponse respFull caller = Go.ret (out, none) ∧
      filterQueryResponse out caller = Go.ret (out, none) := by
  cases hA : respFull.AssetState.Asset with
  | nil => exact absurd hA h
  | cons a rest =>
    unfold filterQueryResponse
    rw [hA]
    refine ⟨_, rfl, ?_⟩
    dsimp only
    split_ifs <;> rfl

/-- The sample record filtered twice for `Supplier`. -/
theorem filterQueryResponse_idempotent_witness :
    ∃ out, filterQueryResponse sampleResponse "Supplier" = Go.ret (out, none) ∧
      filterQueryResponse out "Supplier" = Go.ret (out, none) :=
  filterQueryResponse_idempotent sampleResponse "Supplier" (by decide)

/-- Claim C15: for every caller, `DMA` included, and every record with at least
one asset entry, the asset entry the filter returns has an empty
`DmaCert.Cert`; for caller `DMA` it is the input entry with only that field
changed. -/
theorem filterQueryResponse_clears_cert (respFull : ResponseStruct) (caller : String)
    (a : AssetRecord) (rest : List AssetRecord) (h : respFull.AssetState.Asset = a :: rest) :
    (∃ out b, filterQueryResponse respFull caller = Go.ret (out, none) ∧
      out.AssetState.Asset.head? = some b ∧ b.DmaCert.Cert = "") ∧
    (∃ out, filterQueryResponse respFull "DMA" = Go.ret (out, none) ∧
      out.AssetState.Asset.head? = some
        { TransactionType := a.TransactionType, OwnerId := a.OwnerId, AssetId := a.AssetId,
          MatnrAf := a.MatnrAf, PoDma := a.PoDma, PoSupp := a.PoSupp,
          DmaDelDate := a.DmaDelDate, AfDelDate := a.AfDelDate, TruckMod := a.TruckMod,
          TruckPDate := a.TruckPDate, TruckChnum := a.TruckChnum, TruckEnnum := a.TruckEnnum,
          SuppTest := a.SuppTest, GrDma := a.GrDma, GrAf := a.GrAf, DmaMasdat := a.DmaMasdat,
          AfDmaTest := a.AfDmaTest, DmaCert := { Cert := "" }, AfDoc := a.AfDoc,
          Caller := a.Caller, V5cid := a.V5cid }) := by
  unfold filterQueryResponse
  rw [h]
  refine ⟨⟨_, _, rfl, rfl, ?_⟩, ⟨_, rfl, rfl⟩⟩
  dsimp only
  split_ifs <;> rfl

/-- The certificate of the sample record is cleared for `Transporter`, and for
`DMA` nothing else changes. -/
theorem filterQueryResponse_clears_cert_witness :
    (∃ out b, filterQueryResponse sampleResponse "Transporter" = Go.ret (out, none) ∧
      out.AssetState.Asset.head? = some b ∧ b.DmaCert.Cert = "") ∧
    (∃ out, filterQueryResponse sampleResponse "DMA" = Go.ret (out, none) ∧
      out.AssetState.Asset.head? = some
        { TransactionType := "create", OwnerId := "owner1", AssetId := "A-7",
          MatnrAf := "m1", PoDma := "po1", PoSupp := "po2", DmaDelDate := "d1",
          AfDelDate := "d2", TruckMod := "t1", TruckPDate := "t2", TruckChnum := "t3",
          TruckEnnum := "t4", SuppTest := "s1", GrDma := "g1", GrAf := "g2",
          DmaMasdat := "md", AfDmaTest := "at", DmaCert := { Cert := "" },
          AfDoc := "doc", Caller := "DMA", V5cid := "v5" }) :=
  filterQueryResponse_clears_cert sampleResponse "Transporter" _ _ rfl

/-- Claim C16: two records with one asset entry each, equal outside the entry
and with the same `AssetId` in it, are filtered to equal records for every
caller that is none of `AF`, `DMA`, `Supplier`, `Transporter`: for such a
caller the output depends on no asset field but `AssetId`. -/
theorem filterQueryResponse_unlisted_noninterference (r1 r2 : ResponseStruct)
    (a1 a2 : AssetRecord) (caller : String)
    (h1 : r1.AssetState.Asset = [a1]) (h2 : r2.AssetState.Asset = [a2])
    (hid : a1.AssetId = a2.AssetId)
    (hclass : r1.Assetclass = r2.Assetclass) (hkey : r1.AssetKey = r2.AssetKey)
    (hpayload : r1.EventPayload = r2.EventPayload) (hout : r1.EventOut = r2.EventOut)
    (hAF : caller ≠ "AF") (hDMA : caller ≠ "DMA") (hSup : caller ≠ "Supplier")
    (hTr : caller ≠ "Transporter") :
    filterQueryResponse r1 caller = filterQueryResponse r2 caller ∧
    ∃ out, filterQueryResponse r1 caller = Go.ret (out, none) := by
  unfold filterQueryResponse
  rw [h1, h2]
  simp only [hAF, hDMA, hSup, hTr, if_false]
  refine ⟨?_, _, rfl⟩
  obtain ⟨c1, k1, s1, p1, o1⟩ := r1
  obtain ⟨c2, k2, s2, p2, o2⟩ := r2
  simp only at hclass hkey hpayload hout
  subst hclass hkey hpayload hout
  rw [hid]

/-- The probe record and the zero record carrying the same key, as the single
entries of otherwise equal responses, filtered for the caller `Auditor`. -/
theorem filterQueryResponse_unlisted_noninterference_witness :
    filterQueryResponse probeResponse "Auditor"
        = filterQueryResponse
            { ResponseStruct.zero with
              AssetState := { Asset := [{ AssetRecord.zero with AssetId := "x" }] } }
            "Auditor" ∧
    ∃ out, filterQueryResponse probeResponse "Auditor" = Go.ret (out, none) :=
  filterQueryResponse_unlisted_noninterference probeResponse
    { ResponseStruct.zero with
      AssetState := { Asset := [{ AssetRecord.zero with AssetId := "x" }] } }
    probeRecord { AssetRecord.zero with AssetId := "x" } "Auditor" rfl rfl rfl rfl rfl rfl rfl
    (by decide) (by decide) (by decide) (by decide)

/-! ## Dispatch: configuration errors and unregistered names -/

/-- A name has no route exactly when it is not a key of the registry. -/
theorem Router.get_eq_none_iff (router : Router) (functionName : String) :
    router.get functionName = none ↔ functionName ∉ router.keys := by
  induction router with
  | nil => simp [Router.get, Router.keys]
  | cons p rest ih =>
    obtain ⟨k, r⟩ := p
    unfold Router.keys at ih ⊢
    by_cases hk : k = functionName
    · simp [Router.get, hk]
    · have hk1 : ¬ functionName = k := fun h => hk h.symm
      simp [Router.get, hk, hk1, ih]

/-- The registry has no deploy handler exactly when no route has the method
`deploy`. -/
theorem deployHandlers_eq_nil_iff (router : Router) :
    deployHandlers router = [] ↔ ∀ kr ∈ router, kr.2.Method ≠ "deploy" := by
  unfold deployHandlers
  simp only [List.map_eq_nil_iff, List.filter_eq_nil_iff, List.mem_map, decide_eq_true_eq]
  constructor
  · intro h kr hkr
    exact h kr.2 ⟨kr, hkr, rfl⟩
  · rintro h r ⟨kr, hkr, rfl⟩
    exact h kr hkr

/-- The deploy handlers `Init` collects are none exactly when the registry has
none. -/
theorem getDeployFunctions_eq_nil_iff (env : GoEnv) (router : Router) :
    getDeployFunctions env router = [] ↔ deployHandlers router = [] := by
  have hp := getDeployFunctions_perm env router
  constructor
  · intro h
    rw [h] at hp
    exact List.Perm.nil_eq hp |>.symm
  · intro h
    rw [h] at hp
    exact List.Perm.eq_nil hp

/-- The loop of `Init` over a non-empty list calls its first handler. -/
theorem InitLoop_calls_first (env : GoEnv) (router : Router) (function : String)
    (iargs : List String) (f : ChaincodeFunc) (fs : List ChaincodeFunc) (w : World) :
    ∃ cs, (InitLoop env router function iargs (f :: fs) w).1.calls = w.calls ++ f :: cs := by
  rcases AllSucceed_or_first_failure env router iargs (f :: fs) w.stub with
    hall | ⟨pre, g, post, e, hsplit, hpre, hg⟩
  · rw [InitLoop_all_succeed env router function iargs _ w hall]
    exact ⟨fs, rfl⟩
  · rw [hsplit, InitLoop_first_failure env router function iargs pre g post e w hpre hg]
    cases pre with
    | nil =>
      injection hsplit with h1 _
      subst h1
      exact ⟨[], rfl⟩
    | cons p pre1 =>
      injection hsplit with h1 _
      subst h1
      exact ⟨pre1 ++ [g], rfl⟩

/-- Claim C11: `Init` returns an error without having executed a handler
exactly when the argument list is empty or the registry has no route whose
method is `deploy`; with an argument and a deploy route it executes at least
one handler, a registered deploy handler. -/
theorem Init_error_without_handler_iff (env : GoEnv) (router : Router) (w : World)
    (function : String) (args : List String) (ContractVersion : String) :
    (((∃ e, (Init env router w function args ContractVersion).2.2 = some e) ∧
        (Init env router w function args ContractVersion).1.calls = w.calls) ↔
      (args = [] ∨ ∀ kr ∈ router, kr.2.Method ≠ "deploy")) ∧
    (args ≠ [] → (∃ kr ∈ router, kr.2.Method = "deploy") →
      ∃ f cs, (Init env router w function args ContractVersion).1.calls = w.calls ++ f :: cs ∧
        f ∈ deployHandlers router) := by
  have hrun : args ≠ [] → (∃ kr ∈ router, kr.2.Method = "deploy") →
      ∃ f cs, (Init env router w function args ContractVersion).1.calls = w.calls ++ f :: cs ∧
        f ∈ deployHandlers router := by
    intro hargs hdep
    cases args with
    | nil => exact absurd rfl hargs
    | cons a0 rest =>
      have hne : getDeployFunctions env router ≠ [] := by
        intro h
        have h0 := (deployHandlers_eq_nil_iff router).mp
          ((getDeployFunctions_eq_nil_iff env router).mp h)
        obtain ⟨kr, hkr, hm⟩ := hdep
        exact h0 kr hkr hm
      rw [Init_cons env router w function a0 rest ContractVersion hne]
      cases hfs : getDeployFunctions env router with
      | nil => exact absurd hfs hne
      | cons f fs =>
        obtain ⟨cs, hcs⟩ := InitLoop_calls_first env router function [a0, ContractVersion] f fs w
        refine ⟨f, cs, hcs, ?_⟩
        have hmem : f ∈ getDeployFunctions env router := by
          rw [hfs]
          exact List.mem_cons_self _ _
        exact (getDeployFunctions_perm env router).subset hmem
  refine ⟨⟨?_, ?_⟩, hrun⟩
  · rintro ⟨_, hcalls⟩
    by_contra hcon
    push_neg at hcon
    obtain ⟨hargs, kr, hkr, hm⟩ := hcon
    obtain ⟨f, cs, hcs, _⟩ := hrun hargs ⟨kr, hkr, hm⟩
    rw [hcs] at hcalls
    have := List.append_cancel_left (hcalls.trans (List.append_nil _).symm)
    cases this
  · rintro (hargs | hdep)
    · subst hargs
      exact ⟨⟨_, rfl⟩, rfl⟩
    · cases args with
      | nil => exact ⟨⟨_, rfl⟩, rfl⟩
      | cons a0 rest =>
        have hfs : getDeployFunctions env router = [] :=
          (getDeployFunctions_eq_nil_iff env router).mpr
            ((deployHandlers_eq_nil_iff router).mpr hdep)
        unfold Init
        simp only [hfs, List.length_nil, if_true]
        exact ⟨⟨_, rfl⟩, rfl⟩

/-- The sample registry: without arguments `Init` fails and runs nothing; with
an argument it runs a deploy handler. -/
theorem Init_error_without_handler_iff_witness :
    ((∃ e, (Init demoEnv demoRouter demoWorld "init" [] "1.0").2.2 = some e) ∧
      (Init demoEnv demoRouter demoWorld "init" [] "1.0").1.calls = []) ∧
    ∃ f cs, (Init demoEnv demoRouter demoWorld "init" ["cfg"] "1.0").1.calls = [] ++ f :: cs ∧
      f ∈ deployHandlers demoRouter :=
  ⟨((Init_error_without_handler_iff demoEnv demoRouter demoWorld "init" [] "1.0").1).mpr
      (Or.inl rfl),
   (Init_error_without_handler_iff demoEnv demoRouter demoWorld "init" ["cfg"] "1.0").2
      (by decide)
      ⟨("deployA",
          { FunctionName := "deployA", Method := "deploy", Class := truckClass,
            Function := boomHandler }),
        by simp [demoRouter], rfl⟩⟩

/-- `Query` on a stub with fewer than two string arguments. -/
theorem Query_no_payload (env : GoEnv) (router : Router) (w : World) (function : String)
    (args : List String) (h : w.stub.args.get? 1 = none) :
    Query env router w function args
      = (w, Go.panic ("runtime error: index out of range [1] with length "
          ++ toString w.stub.args.length)) := by
  unfold Query
  simp only [h]

/-- `Query` on a name that is not registered. -/
theorem Query_not_found (env : GoEnv) (router : Router) (w : World) (function : String)
    (args : List String) (a1 : String) (hargs : w.stub.args.get? 1 = some a1)
    (hr : router.get function = none) :
    Query env router w function args
      = (w, Go.ret ("", some ("Query did not find registered query function " ++ function))) := by
  unfold Query
  simp only [hargs, hr]

/-- `Query` on a registered name: the handler of the route has been called and
the stub is the one it left; `Query` itself adds nothing to it. -/
theorem Query_world (env : GoEnv) (router : Router) (w : World) (function : String)
    (args : List String) (a1 : String) (r : ChaincodeRoute)
    (hargs : w.stub.args.get? 1 = some a1) (hr : router.get function = some r) :
    (Query env router w function args).1
      = { stub := (r.Function.apply env router w.stub args).1,
          calls := w.calls ++ [r.Function] } := by
  unfold Query World.call
  simp only [hargs, hr]
  rcases r.Function.apply env router w.stub args with ⟨stub1, result, err⟩
  cases err with
  | some e => rfl
  | none =>
    simp only
    cases filterQueryResponse (env.unmarshalResponse result).1
        (env.unmarshalInRequest a1).1.Asset.Caller with
    | panic msg => rfl
    | ret v =>
      obtain ⟨filteredResp, ferr⟩ := v
      cases ferr with
      | some e => rfl
      | none =>
        simp only
        rcases env.marshalResponse filteredResp with ⟨resbytes, merr⟩
        cases merr <;> rfl

/-- Claim C12: for an operation name that is not a key of the registry, `Invoke`
returns a non-nil error and `Query`, on a stub that carries a request
payload, returns a non-nil error; neither executes a handler nor writes to
the world state. -/
theorem unregistered_name_is_refused (env : GoEnv) (router : Router) (w : World)
    (function : String) (args : List String) (a1 : String)
    (hname : function ∉ router.keys) (hargs : w.stub.args.get? 1 = some a1) :
    ((∃ e, (Invoke env router w function args).2.2 = some e) ∧
      (Invoke env router w function args).1.calls = w.calls ∧
      (Invoke env router w function args).1.stub.state = w.stub.state) ∧
    ((∃ e, (Query env router w function args).2 = Go.ret ("", some e)) ∧
      (Query env router w function args).1.calls = w.calls ∧
      (Query env router w function args).1.stub.state = w.stub.state) := by
  have hr := (Router.get_eq_none_iff router function).mpr hname
  rw [Invoke_not_found env router w function args hr,
    Query_not_found env router w function args a1 hargs hr]
  refine ⟨⟨⟨_, rfl⟩, rfl, ?_⟩, ⟨_, rfl⟩, rfl, rfl⟩
  show (setStubEvent w.stub _ none).state = w.stub.state
  rw [setStubEvent_eq]

/-- The name `transfer` is not registered in the sample registry. -/
theorem unregistered_name_is_refused_witness :
    ((∃ e, (Invoke demoEnv demoRouter demoWorld "transfer" []).2.2 = some e) ∧
      (Invoke demoEnv demoRouter demoWorld "transfer" []).1.calls = [] ∧
      (Invoke demoEnv demoRouter demoWorld "transfer" []).1.stub.state = []) ∧
    ((∃ e, (Query demoEnv demoRouter demoWorld "transfer" []).2 = Go.ret ("", some e)) ∧
      (Query demoEnv demoRouter demoWorld "transfer" []).1.calls = [] ∧
      (Query demoEnv demoRouter demoWorld "transfer" []).1.stub.state = []) :=
  unregistered_name_is_refused demoEnv demoRouter demoWorld "transfer" []
    "\x7b\"Asset\":\x7b\"caller\":\"AF\"\x7d\x7d" (by decide) rfl

/-- Claim C13: when `Query` returns, be it with the route not found, with the
handler's error or with the filtered response, it has published no event: the
events on the stub are the events the handler left, so they are the incoming
ones when the handler publishes nothing. -/
theorem Query_publishes_no_event (env : GoEnv) (router : Router) (w : World)
    (function : String) (args : List String) (v : String × Option String)
    (hret : (Query env router w function args).2 = Go.ret v) :
    (Query env router w function args).1.stub.events
        = (stubAfterHandler env router w function args).events ∧
    ((stubAfterHandler env router w function args).events = w.stub.events →
      (Query env router w function args).1.stub.events = w.stub.events) := by
  have hev : (Query env router w function args).1.stub.events
      = (stubAfterHandler env router w function args).events := by
    cases hargs : w.stub.args.get? 1 with
    | none =>
      rw [Query_no_payload env router w function args hargs] at hret
      cases hret
    | some a1 =>
      cases hr : router.get function with
      | none =>
        rw [Query_not_found env router w function args a1 hargs hr,
          stubAfterHandler_none env router w function args hr]
      | some r =>
        rw [Query_world env router w function args a1 r hargs hr,
          stubAfterHandler_some env router w function args r
            (r.Function.apply env router w.stub args).1
            (r.Function.apply env router w.stub args).2 hr rfl]
  exact ⟨hev, fun h => hev.trans h⟩

/-- The query `readSample` of the sample registry returns the filtered sample
and leaves the event log empty. -/
theorem Query_publishes_no_event_witness :
    (Query demoEnv demoRouter demoWorld "readSample" []).2 = Go.ret ("TR-7:A-7", none) ∧
    (Query demoEnv demoRouter demoWorld "readSample" []).1.stub.events = [] :=
  ⟨rfl,
   (Query_publishes_no_event demoEnv demoRouter demoWorld "readSample" [] ("TR-7:A-7", none)
      rfl).2 rfl⟩

/-! ## The extra payload of an error report -/

/-- Claim C17, where the code departs from it: called with an error and a
non-nil extra payload, `setStubEvent` publishes the extra payload with
`status` and `message` assigned over it; every other key of the extra payload
is still in the failure report. -/
theorem setStubEvent_error_keeps_extra_payload (stub : Stub) (e : String) (info : JMap)
    (k : String) (hs : k ≠ "status") (hm : k ≠ "message") :
    ∃ payload : JMap,
      (setStubEvent stub (some e) (some info)).events
        = stub.events ++ [{ name := EVTCCINVRESULT, payload := payload }] ∧
      payload.get "status" = some (JValue.string "ERROR") ∧
      payload.get "message" = some (JValue.string e) ∧
      payload.get k = JMap.get info k := by
  refine ⟨resultPayload (some e) (some info), by rw [setStubEvent_eq], ?_, ?_, ?_⟩
  · show JMap.get (JMap.set (JMap.set info "status" _) "message" _) "status" = _
    rw [JMap.get_set, if_neg (by decide), JMap.get_set, if_pos rfl]
  · show JMap.get (JMap.set (JMap.set info "status" _) "message" _) "message" = _
    rw [JMap.get_set, if_pos rfl]
  · show JMap.get (JMap.set (JMap.set info "status" _) "message" _) k = _
    rw [JMap.get_set, if_neg (fun h => hm h.symm), JMap.get_set, if_neg (fun h => hs h.symm)]

/-- The error `boom` reported with the extra payload `x = 1`: the key `x` is
published next to `status` and `message`. -/
theorem setStubEvent_error_keeps_extra_payload_witness :
    ∃ payload : JMap,
      (setStubEvent demoStub (some "boom") (some [("x", JValue.number "1")])).events
        = [{ name := EVTCCINVRESULT, payload := payload }] ∧
      payload.get "status" = some (JValue.string "ERROR") ∧
      payload.get "message" = some (JValue.string "boom") ∧
      payload.get "x" = some (JValue.number "1") :=
  setStubEvent_error_keeps_extra_payload demoStub "boom" [("x", JValue.number "1")] "x"
    (by decide) (by decide)

/-! ## Dispatch and the method of a route -/

/-- `Invoke` on a registered name calls the handler of the route. -/
theorem Invoke_calls (env : GoEnv) (router : Router) (w : World) (function : String)
    (args : List String) (r : ChaincodeRoute) (hr : router.get function = some r) :
    (Invoke env router w function args).1.calls = w.calls ++ [r.Function] := by
  rcases hcall : r.Function.apply env router w.stub args with ⟨stub1, bytes, err⟩
  cases err with
  | some e =>
    rw [Invoke_handler_error env router w function args r stub1 bytes e hr hcall]
    rfl
  | none =>
    by_cases hlen : bytes.length = 0
    · rw [Invoke_no_bytes env router w function args r stub1 bytes hr hcall hlen]
      rfl
    · cases hdec : env.unmarshalMap bytes with
      | error e =>
        rw [Invoke_bad_bytes env router w function args r stub1 bytes e hr hcall hlen hdec]
        rfl
      | ok eventMap =>
        rw [Invoke_decoded env router w function args r stub1 bytes eventMap hr hcall hlen
          hdec]
        rfl

/-- Claim C18, refuted as stated: in the registry with one route of each method,
`Query` on the invoke route `createAsset` runs its handler, which writes to
the world state, and returns the filtered response; `Invoke` on the query
route `readSample` runs its handler, and `Invoke` on the deploy route
`deployB` runs its handler and reports success. None is reported as not
found. -/
theorem dispatch_ignores_method :
    ((mixedRouter.get "createAsset").map (fun r => r.Method) = some "invoke" ∧
      (Query demoEnv mixedRouter demoWorld "createAsset" []).1.calls = [writeSampleHandler] ∧
      (Query demoEnv mixedRouter demoWorld "createAsset" []).1.stub.state
        = [("A-7", "created")] ∧
      (Query demoEnv mixedRouter demoWorld "createAsset" []).2 = Go.ret ("TR-7:A-7", none)) ∧
    ((mixedRouter.get "readSample").map (fun r => r.Method) = some "query" ∧
      (Invoke demoEnv mixedRouter demoWorld "readSample" []).1.calls = [sampleHandler]) ∧
    ((mixedRouter.get "deployB").map (fun r => r.Method) = some "deploy" ∧
      (Invoke demoEnv mixedRouter demoWorld "deployB" ["cfg", "1.0"]).1.calls
        = [versionHandler] ∧
      (Invoke demoEnv mixedRouter demoWorld "deployB" ["cfg", "1.0"]).2.2 = none) :=
  ⟨⟨rfl, rfl, rfl, rfl⟩, ⟨rfl, rfl⟩, ⟨rfl, rfl, rfl⟩⟩

/-- Claim C18, as amended: `Invoke` and `Query` (on a stub that carries a request
payload) execute the handler of the route registered under the name, whatever
the method of that route; only a name with no route is reported as not found,
with the texts `did not find registered invoke function` and `did not find
registered query function`, and then no handler is executed. -/
theorem dispatch_by_name_only (env : GoEnv) (router : Router) (w : World)
    (function : String) (args : List String) (a1 : String)
    (hargs : w.stub.args.get? 1 = some a1) :
    (∀ r, router.get function = some r →
      (Invoke env router w function args).1.calls = w.calls ++ [r.Function] ∧
      (Query env router w function args).1.calls = w.calls ++ [r.Function]) ∧
    (router.get function = none →
      (Invoke env router w function args).1.calls = w.calls ∧
      (Invoke env router w function args).2.2
        = some ("$NIHAL$Invoke did not find registered invoke function " ++ function) ∧
      Query env router w function args
        = (w, Go.ret ("", some ("Query did not find registered query function " ++ function)))) := by
  constructor
  · intro r hr
    refine ⟨Invoke_calls env router w function args r hr, ?_⟩
    rw [Query_world env router w function args a1 r hargs hr]
  · intro hr
    rw [Invoke_not_found env router w function args hr]
    exact ⟨rfl, rfl, Query_not_found env router w function args a1 hargs hr⟩

/-- The route `g` of the sample registry and the unregistered name `transfer`. -/
theorem dispatch_by_name_only_witness :
    ((Invoke demoEnv demoRouter demoWorld "g" []).1.calls = [xHandler] ∧
      (Query demoEnv demoRouter demoWorld "g" []).1.calls = [xHandler]) ∧
    ((Invoke demoEnv demoRouter demoWorld "transfer" []).1.calls = [] ∧
      (Invoke demoEnv demoRouter demoWorld "transfer" []).2.2
        = some "$NIHAL$Invoke did not find registered invoke function transfer" ∧
      Query demoEnv demoRouter demoWorld "transfer" []
        = (demoWorld,
           Go.ret ("", some "Query did not find registered query function transfer"))) :=
  ⟨(dispatch_by_name_only demoEnv demoRouter demoWorld "g" []
      "\x7b\"Asset\":\x7b\"caller\":\"AF\"\x7d\x7d" rfl).1
      { FunctionName := "g", Method := "invoke", Class := truckClass, Function := xHandler } rfl,
   (dispatch_by_name_only demoEnv demoRouter demoWorld "transfer" []
      "\x7b\"Asset\":\x7b\"caller\":\"AF\"\x7d\x7d" rfl).2 rfl⟩

/-! ## The text of the duplicate-route error -/

/-- Claim C19, where the code departs from it: the message of a refused
registration is built from `class.Name`, `method`, `r.FunctionName`,
`r.Class.Name`, `r.Method` in this order, so the place labelled function name
carries the class name, the place labelled class carries the method and the
place labelled method carries the function name; only the existing class and
method stand where their labels are. -/
theorem AddRoute_duplicate_message (router : Router) (functionName method : String)
    (cls : AssetClass) (function : ChaincodeFunc) (r : ChaincodeRoute)
    (h : router.get functionName = some r) :
    (AddRoute router functionName method cls function).2
      = some ("AddRoute: function name " ++ cls.Name ++ " attempt to register against class "
          ++ method ++ " as method " ++ r.FunctionName
          ++ " but is already registered against class " ++ r.Class.Name
          ++ " as method " ++ r.Method) := by
  unfold AddRoute
  rw [h]

/-- Registering `f` again as a query of class `System` against the invoke
route of class `truck`: the text the code returns, which is not the text with
each value under its own label. -/
theorem AddRoute_duplicate_message_witness :
    (AddRoute demoRouter "f" "query" demoSystemClass quietHandler).2
      = some ("AddRoute: function name System attempt to register against class query"
          ++ " as method f but is already registered against class truck as method invoke") ∧
    (AddRoute demoRouter "f" "query" demoSystemClass quietHandler).2
      ≠ some ("AddRoute: function name f attempt to register against class System"
          ++ " as method query but is already registered against class truck as method invoke") :=
  ⟨AddRoute_duplicate_message demoRouter "f" "query" demoSystemClass quietHandler
      { FunctionName := "f", Method := "invoke", Class := truckClass, Function := boomHandler }
      rfl,
   by decide⟩

/-! ## The request payload of a query -/

/-- A handler does not read how the request payload decodes. -/
theorem apply_dropRequestError (env : GoEnv) (router : Router) (f : ChaincodeFunc)
    (stub : Stub) (args : List String) :
    f.apply env.dropRequestError router stub args = f.apply env router stub args := by
  cases f <;> rfl

/-- `Query` does not read the error of decoding the request payload. -/
theorem Query_dropRequestError (env : GoEnv) (router : Router) (w : World)
    (function : String) (args : List String) :
    Query env.dropRequestError router w function args = Query env router w function args := by
  unfold Query World.call
  simp only [apply_dropRequestError]
  rfl

/-- A handler does not read how the request payload decodes. -/
theorem apply_withRequestDecoder (env : GoEnv) (dec : String → InRequest × Option String)
    (router : Router) (f : ChaincodeFunc) (stub : Stub) (args : List String) :
    f.apply (env.withRequestDecoder dec) router stub args = f.apply env router stub args := by
  cases f <;> rfl

/-- Of the decoding of the request payload `Query` reads only the caller: two
decoders that leave the same caller in the record decoded from entry 1 give
the same run. -/
theorem Query_withRequestDecoder (env : GoEnv) (dec : String → InRequest × Option String)
    (router : Router) (w : World) (function : String) (args : List String) (a1 : String)
    (hargs : w.stub.args.get? 1 = some a1)
    (hcaller : (dec a1).1.Asset.Caller = (env.unmarshalInRequest a1).1.Asset.Caller) :
    Query (env.withRequestDecoder dec) router w function args
      = Query env router w function args := by
  have h1 : ((env.withRequestDecoder dec).unmarshalInRequest a1).1.Asset.Caller
      = (env.unmarshalInRequest a1).1.Asset.Caller := hcaller
  have h2 : (env.withRequestDecoder dec).unmarshalResponse = env.unmarshalResponse := rfl
  have h3 : (env.withRequestDecoder dec).marshalResponse = env.marshalResponse := rfl
  unfold Query World.call
  simp only [hargs, apply_withRequestDecoder, h1, h2, h3]

/-- Claim C20, refuted as stated: the request payload names the caller `DMA` and
gives a number for the string field `ownerId`. Its decoding reports an error,
yet the caller it leaves is `DMA`, not the empty string, and `Query` answers
with the view of `DMA`, in which the owner of the asset is shown; the view of
the empty caller hides it. -/
theorem Query_failed_decode_keeps_caller :
    (mismatchEnv.unmarshalInRequest mismatchPayload).2
      = some "json: cannot unmarshal number into Go struct field .Asset.ownerId of type string" ∧
    (mismatchEnv.unmarshalInRequest mismatchPayload).1.Asset.Caller = "DMA" ∧
    Query mismatchEnv demoRouter mismatchWorld "readSample" []
      = ({ stub := mismatchWorld.stub, calls := [sampleHandler] },
         Go.ret ("A-7/owner1", none)) ∧
    Query (mismatchEnv.withRequestDecoder (fun _ => (InRequest.zero, none))) demoRouter
        mismatchWorld "readSample" []
      = ({ stub := mismatchWorld.stub, calls := [sampleHandler] }, Go.ret ("A-7/", none)) :=
  ⟨rfl, rfl, rfl, rfl⟩

/-- Claim C20, as amended: on a stub with at least two string arguments `Query`
reads entry 1 without a fault and goes on to the route lookup: an
unregistered name is answered with the not-found error, a registered one has
its handler run. The error of decoding the payload plays no part: `Query`
goes on with the caller the decoder left in the request record, whatever else
the decoder did, and so with the empty caller when the decoder left the record
at its zero value. On a stub with fewer than two string arguments `Query`
faults at the read of entry 1, before any lookup or handler: the world is as
it was. -/
theorem Query_request_payload_index (env : GoEnv) (router : Router) (w : World)
    (function : String) (args : List String) :
    (2 ≤ w.stub.args.length →
      ∃ a1, w.stub.args.get? 1 = some a1 ∧
        (router.get function = none →
          Query env router w function args
            = (w, Go.ret ("",
                some ("Query did not find registered query function " ++ function)))) ∧
        (∀ r, router.get function = some r →
          (Query env router w function args).1.calls = w.calls ++ [r.Function]) ∧
        Query env.dropRequestError router w function args
          = Query env router w function args ∧
        (∀ dec : String → InRequest × Option String,
          (dec a1).1.Asset.Caller = (env.unmarshalInRequest a1).1.Asset.Caller →
          Query (env.withRequestDecoder dec) router w function args
            = Query env router w function args) ∧
        ((env.unmarshalInRequest a1).1 = InRequest.zero →
          (env.unmarshalInRequest a1).1.Asset.Caller = "" ∧
          Query env router w function args
            = Query (env.withRequestDecoder (fun _ => (InRequest.zero, none))) router w
                function args)) ∧
    (w.stub.args.length < 2 →
      Query env router w function args
        = (w, Go.panic ("runtime error: index out of range [1] with length "
            ++ toString w.stub.args.length))) := by
  constructor
  · intro hlen
    have hget : ∃ a1, w.stub.args.get? 1 = some a1 := by
      cases hA : w.stub.args with
      | nil => rw [hA] at hlen; exact absurd hlen (by decide)
      | cons a rest =>
        cases rest with
        | nil =>
          rw [hA] at hlen
          simp only [List.length_cons, List.length_nil] at hlen
          omega
        | cons b rest1 => exact ⟨b, rfl⟩
    obtain ⟨a1, ha1⟩ := hget
    refine ⟨a1, ha1, fun hr => Query_not_found env router w function args a1 ha1 hr,
      fun r hr => ?_, Query_dropRequestError env router w function args,
      fun dec hdec => Query_withRequestDecoder env dec router w function args a1 ha1 hdec,
      fun hzero => ⟨by rw [hzero]; rfl, ?_⟩⟩
    · rw [Query_world env router w function args a1 r ha1 hr]
    · exact (Query_withRequestDecoder env (fun _ => (InRequest.zero, none)) router w function
        args a1 ha1 (by rw [hzero])).symm
  · intro hlen
    apply Query_no_payload
    cases hA : w.stub.args with
    | nil => rfl
    | cons a rest =>
      cases rest with
      | nil => rfl
      | cons b rest1 =>
        rw [hA] at hlen
        simp only [List.length_cons] at hlen
        omega

/-- A query `readSample` whose request payload is not JSON: the decoder
reports an error and leaves the zero record, the handler of the route runs and
the answer is the one for the empty caller. A stub that holds only the
function name makes `Query` fault and leaves the world untouched. -/
theorem Query_request_payload_index_witness :
    ((demoEnv.unmarshalInRequest "not json").2 = some "unexpected end of JSON input" ∧
      (Query demoEnv demoRouter garbledWorld "readSample" []).1.calls = [sampleHandler] ∧
      Query demoEnv demoRouter garbledWorld "readSample" []
        = Query (demoEnv.withRequestDecoder (fun _ => (InRequest.zero, none))) demoRouter
            garbledWorld "readSample" []) ∧
    Query demoEnv demoRouter { stub := { args := ["readSample"], state := [], events := [] },
                                calls := [] } "readSample" []
      = ({ stub := { args := ["readSample"], state := [], events := [] }, calls := [] },
         Go.panic "runtime error: index out of range [1] with length 1") := by
  obtain ⟨a1, ha1, _, hcalls, _, _, hzero⟩ :=
    (Query_request_payload_index demoEnv demoRouter garbledWorld "readSample" []).1 (by decide)
  have ha : a1 = "not json" := by
    have h : some "not json" = some a1 := ha1
    injection h with h
    exact h.symm
  subst ha
  exact ⟨⟨rfl, hcalls _ rfl, (hzero rfl).2⟩,
    (Query_request_payload_index demoEnv demoRouter
      { stub := { args := ["readSample"], state := [], events := [] }, calls := [] }
      "readSample" []).2 (by decide)⟩

end IotContractPlatform
